import Mathlib

/-!
# CarListingService: the scraping session and the ingestion consumer

A shallow embedding of `services/facebook_scraper.go`, `services/car_service.go`,
`repository/car_repository.go` and the scraper part of `config/config.go`, followed
by theorems about it.

Modelling conventions
* Go `int` counters are unbounded `Int`s.  A `time.Duration` is its number of
  nanoseconds, an int64 in Go: `calculateAdaptiveDelay64` is the controller with the
  wrap-around of the int64 addition and subtraction made explicit, and it is the one
  that `performScrollCycle` calls.  `calculateAdaptiveDelay` is the same controller
  over exact integers, and `calculateAdaptiveDelay64_eq` shows that both agree
  whenever the delay lies within the int64 range with a margin of one step.
* `seenURLs map[string]bool` only ever receives the value `true`
  (`state.seenURLs[listing.Link] = true`) and is only read through
  `state.seenURLs[listing.Link]`, so it is the finite set of its keys.
* The browser driver and the database are external: each driver call of a cycle
  is an outcome of the record `DriverCycle`, the database is a record of
  state-passing operations `DB`.
* The process environment is the function `getenv` (`os.Getenv`), and
  `time.ParseDuration` of the standard library is a parameter of the loader.
-/

set_option autoImplicit false

namespace CarListing

/-! ## Data model -/

/-- The record `models.Car`; the two timestamps are nanosecond counts. -/
structure Car where
  ID : Int
  Title : String
  Price : String
  Currency : String
  Year : String
  Mileage : String
  Location : String
  Link : String
  CreatedAt : Int
  UpdatedAt : Int
deriving DecidableEq, Repr

/-- The record `config.ScraperConfig`; durations in nanoseconds. -/
structure ScraperConfig where
  MaxScrolls : Int
  MaxDuration : Int
  InitialDelay : Int
  MinDelay : Int
  MaxDelay : Int
  MaxConsecutiveNoNew : Int
  MaxConsecutiveUnchanged : Int
  ExtractionInterval : Int
deriving DecidableEq, Repr

/-- The record `ScrollState` of `facebook_scraper.go`. -/
structure ScrollState where
  currentScroll : Int
  consecutiveNoNewItems : Int
  consecutiveUnchangedDOM : Int
  consecutiveScrollNoMove : Int
  previousDOMCount : Int
  previousScrollY : Int
  currentDelay : Int
  seenURLs : Finset String
  totalItemsFound : Int
  totalNewItems : Int
  totalDuplicates : Int
  startTime : Int
deriving DecidableEq

/-- One millisecond, `time.Millisecond`, in nanoseconds. -/
def Millisecond : Int := 1000000

/-- One second, `time.Second`, in nanoseconds. -/
def Second : Int := 1000 * Millisecond

/-- One minute, `time.Minute`, in nanoseconds. -/
def Minute : Int := 60 * Second

/-- The defaults of `loadScraperConfig` (no environment variable set). -/
def defaultScraperConfig : ScraperConfig where
  MaxScrolls := 2000
  MaxDuration := 60 * Minute
  InitialDelay := 2 * Second
  MinDelay := 1500 * Millisecond
  MaxDelay := 5 * Second
  MaxConsecutiveNoNew := 10
  MaxConsecutiveUnchanged := 10
  ExtractionInterval := 5

/-- The state built by `ScrapeCars` before the loop: every field zero except the
delay, the (empty) map and the start time. -/
def initialState (config : ScraperConfig) (now : Int) : ScrollState where
  currentScroll := 0
  consecutiveNoNewItems := 0
  consecutiveUnchangedDOM := 0
  consecutiveScrollNoMove := 0
  previousDOMCount := 0
  previousScrollY := 0
  currentDelay := config.InitialDelay
  seenURLs := ∅
  totalItemsFound := 0
  totalNewItems := 0
  totalDuplicates := 0
  startTime := now

/-! ## Deduplication -/

/-- The loop variables of `filterDuplicates`. -/
structure FilterAcc where
  state : ScrollState
  newListings : List Car
  duplicateCount : Int

/-- One iteration of the `for _, listing := range allListings` loop. -/
def filterStep (acc : FilterAcc) (listing : Car) : FilterAcc :=
  if listing.Link = "" then acc
  else if listing.Link ∈ acc.state.seenURLs then
    { acc with duplicateCount := acc.duplicateCount + 1 }
  else
    { state := { acc.state with
                  seenURLs := insert listing.Link acc.state.seenURLs
                  totalItemsFound := acc.state.totalItemsFound + 1 }
      newListings := acc.newListings ++ [listing]
      duplicateCount := acc.duplicateCount }

/-- The function `filterDuplicates`: the returned slice and the state it leaves. -/
def filterDuplicates (allListings : List Car) (state : ScrollState) :
    List Car × ScrollState :=
  let acc := allListings.foldl filterStep ⟨state, [], 0⟩
  (acc.newListings, { acc.state with totalDuplicates := acc.duplicateCount })

/-! ## Stop condition and scroll signals -/

/-- The function `shouldStopScraping`; `elapsed` is the value of
`time.Since(state.startTime)`. -/
def shouldStopScraping (state : ScrollState) (config : ScraperConfig) (elapsed : Int) :
    Bool :=
  if state.currentScroll ≥ config.MaxScrolls then true
  else if elapsed ≥ config.MaxDuration then true
  else
    let triggeredCount : Int := 0
    let triggeredCount :=
      if state.consecutiveUnchangedDOM ≥ config.MaxConsecutiveUnchanged then
        triggeredCount + 1 else triggeredCount
    let triggeredCount :=
      if state.consecutiveNoNewItems ≥ config.MaxConsecutiveNoNew then
        triggeredCount + 1 else triggeredCount
    let triggeredCount :=
      if state.consecutiveScrollNoMove ≥ 10 then triggeredCount + 1 else triggeredCount
    decide (triggeredCount ≥ 2)

/-- The function `updateScrollSignals`. -/
def updateScrollSignals (state : ScrollState)
    (prevDOMCount currDOMCount prevScrollY currScrollY : Int) : ScrollState :=
  let state :=
    if currDOMCount = prevDOMCount ∧ prevDOMCount > 0 then
      { state with consecutiveUnchangedDOM := state.consecutiveUnchangedDOM + 1 }
    else
      { state with consecutiveUnchangedDOM := 0 }
  let state := { state with previousDOMCount := currDOMCount }
  let state :=
    if currScrollY = prevScrollY ∧ prevScrollY > 0 then
      { state with consecutiveScrollNoMove := state.consecutiveScrollNoMove + 1 }
    else
      { state with consecutiveScrollNoMove := 0 }
  { state with previousScrollY := currScrollY }

/-! ## Adaptive delay -/

/-- The function `calculateAdaptiveDelay` with durations as exact integers.  The float
comparison `float64(duplicateCount)/float64(totalInBatch) > 0.5` is the comparison of
the exact quotient with one half. -/
def calculateAdaptiveDelay (currentDelay newItemsCount duplicateCount totalInBatch : Int)
    (config : ScraperConfig) : Int :=
  if newItemsCount > 20 then
    let newDelay := currentDelay - 100 * Millisecond
    if newDelay < config.MinDelay then config.MinDelay else newDelay
  else if newItemsCount = 0 then
    let newDelay := currentDelay + 500 * Millisecond
    if newDelay > config.MaxDelay then config.MaxDelay else newDelay
  else if totalInBatch > 0 ∧ (duplicateCount : ℚ) / (totalInBatch : ℚ) > 1 / 2 then
    let newDelay := currentDelay + 200 * Millisecond
    if newDelay > config.MaxDelay then config.MaxDelay else newDelay
  else currentDelay

/-- Two's-complement reduction of an integer to the int64 range. -/
def wrap64 (x : Int) : Int := (x + 2 ^ 63) % 2 ^ 64 - 2 ^ 63

/-- The function `calculateAdaptiveDelay` with the additions and the subtraction
on `time.Duration` (an int64) wrapping around as in Go. -/
def calculateAdaptiveDelay64 (currentDelay newItemsCount duplicateCount totalInBatch : Int)
    (config : ScraperConfig) : Int :=
  if newItemsCount > 20 then
    let newDelay := wrap64 (currentDelay - 100 * Millisecond)
    if newDelay < config.MinDelay then config.MinDelay else newDelay
  else if newItemsCount = 0 then
    let newDelay := wrap64 (currentDelay + 500 * Millisecond)
    if newDelay > config.MaxDelay then config.MaxDelay else newDelay
  else if totalInBatch > 0 ∧ (duplicateCount : ℚ) / (totalInBatch : ℚ) > 1 / 2 then
    let newDelay := wrap64 (currentDelay + 200 * Millisecond)
    if newDelay > config.MaxDelay then config.MaxDelay else newDelay
  else currentDelay

/-! ## One scroll cycle -/

/-- The outcomes of the driver calls made by one `performScrollCycle`.
`none` in a probe means that the evaluation failed, which leaves the target
variable at its zero value; `extracted` is what the extraction script left in
`listings` (the nil slice when the script failed). -/
structure DriverCycle where
  preDOMCount : Option Int
  preScrollY : Option Int
  scrollOk : Bool
  sleepOk : Bool
  postDOMCount : Option Int
  postScrollY : Option Int
  extractOk : Bool
  extracted : List Car

/-- The function `captureDOMState`: `chromedp.Run` stops at the first failing
evaluation and its error is dropped, the named results keep their zero value. -/
def captureDOMState (domCount scrollY : Option Int) : Int × Int :=
  match domCount with
  | none => (0, 0)
  | some c =>
    match scrollY with
    | none => (c, 0)
    | some y => (c, y)

/-- The function `extractListings`: the error of `chromedp.Run` is dropped and
`listings` is returned as the evaluation left it. -/
def extractListings (d : DriverCycle) : List Car := d.extracted

/-- The function `logProgress`: apart from the log line it resets `totalNewItems`. -/
def logProgress (state : ScrollState) : ScrollState :=
  { state with totalNewItems := 0 }

/-- How a call of `performScrollCycle` ends: `return nil`, `return err`, or the
run-time panic of an integer division by zero. -/
inductive CycleStatus where
  | ok
  | driverError
  | divideByZero
deriving DecidableEq, Repr

/-- What a call of `performScrollCycle` leaves behind: the state, the batch sent on
`resultsChan` (if any) and how the call ended. -/
structure CycleOutcome where
  state : ScrollState
  published : Option (List Car)
  status : CycleStatus

/-- The function `performScrollCycle`; the new delay is computed in int64
arithmetic. -/
def performScrollCycle (d : DriverCycle) (state : ScrollState) (config : ScraperConfig) :
    CycleOutcome :=
  let (prevDOMCount, prevScrollY) := captureDOMState d.preDOMCount d.preScrollY
  if ¬ (d.scrollOk = true ∧ d.sleepOk = true) then
    { state := state, published := none, status := CycleStatus.driverError }
  else
    let state := { state with currentScroll := state.currentScroll + 1 }
    let (currDOMCount, currScrollY) := captureDOMState d.postDOMCount d.postScrollY
    let state := updateScrollSignals state prevDOMCount currDOMCount prevScrollY currScrollY
    let allListings := extractListings d
    let (newListings, state) := filterDuplicates allListings state
    let (state, published) :=
      if newListings.length = 0 then
        ({ state with consecutiveNoNewItems := state.consecutiveNoNewItems + 1 }, none)
      else
        ({ state with
            consecutiveNoNewItems := 0
            totalNewItems := state.totalNewItems + newListings.length },
         some newListings)
    let state := { state with
      currentDelay := calculateAdaptiveDelay64 state.currentDelay newListings.length
        state.totalDuplicates allListings.length config }
    if config.ExtractionInterval = 0 then
      { state := state, published := published, status := CycleStatus.divideByZero }
    else if Int.tmod state.currentScroll config.ExtractionInterval = 0 then
      { state := logProgress state, published := published, status := CycleStatus.ok }
    else
      { state := state, published := published, status := CycleStatus.ok }

/-! ## The session loop of `ScrapeCars` -/

/-- What one iteration of the loop in `ScrapeCars` reads from outside: the value of
`time.Since(state.startTime)` at the loop test and the driver outcomes of the cycle. -/
structure CycleInput where
  elapsed : Int
  driver : DriverCycle

/-- How far a session got on the inputs given to it. -/
inductive SessionStatus where
  | stopped
  | failed
  | crashed
  | running
deriving DecidableEq, Repr

/-- A session: its state, the batches sent on `resultsChan` so far (oldest first)
and its status. -/
structure SessionOutcome where
  state : ScrollState
  batches : List (List Car)
  status : SessionStatus

/-- The loop `for !shouldStopScraping(state, scraperConfig) { performScrollCycle }`
of `ScrapeCars`, run on the cycles whose inputs are given; `running` when the
inputs end before the session does. -/
def scrapeLoop (config : ScraperConfig) :
    ScrollState → List CycleInput → SessionOutcome
  | state, [] => { state := state, batches := [], status := SessionStatus.running }
  | state, c :: rest =>
    if shouldStopScraping state config c.elapsed = true then
      { state := state, batches := [], status := SessionStatus.stopped }
    else
      let out := performScrollCycle c.driver state config
      match out.status with
      | CycleStatus.driverError =>
        { state := out.state, batches := out.published.toList,
          status := SessionStatus.failed }
      | CycleStatus.divideByZero =>
        { state := out.state, batches := out.published.toList,
          status := SessionStatus.crashed }
      | CycleStatus.ok =>
        let r := scrapeLoop config out.state rest
        { r with batches := out.published.toList ++ r.batches }

/-! ## The store and the ingestion consumer -/

/-- The database as seen by `carRepository`: every operation takes the state of the
store and returns the next one.  `queryLinks` is the query of `FindExistingLinks`
with the scan of its rows (`none` when the query, a scan or `rows.Err()` fails),
`exec` is `stmt.Exec` followed by `RowsAffected` (`none` when `Exec` fails). -/
structure DB (σ : Type) where
  queryLinks : σ → List String → σ × Option (List String)
  begin : σ → σ × Bool
  prepare : σ → σ × Bool
  exec : σ → Car → σ × Option Int
  commit : σ → σ × Bool
  closeStmt : σ → σ
  rollback : σ → σ

/-- The method `carRepository.FindExistingLinks`; the returned map is the set of
its keys, `none` is a non-nil error. -/
def FindExistingLinks {σ : Type} (db : DB σ) (s : σ) (links : List String) :
    σ × Option (Finset String) :=
  if links.length = 0 then (s, some ∅)
  else
    match db.queryLinks s links with
    | (s, none) => (s, none)
    | (s, some rows) => (s, some (rows.foldl (fun m link => insert link m) ∅))

/-- One iteration of the insert loop of `InsertBatch`: a failing `Exec` is skipped. -/
def insertStep {σ : Type} (db : DB σ) (acc : σ × Int) (car : Car) : σ × Int :=
  match db.exec acc.1 car with
  | (s, none) => (s, acc.2)
  | (s, some rows) => (s, acc.2 + rows)

/-- The method `carRepository.InsertBatch`; `none` is a non-nil error (the count
returned with it is 0).  The deferred `stmt.Close()` and `tx.Rollback()` run on
the way out, in that order. -/
def InsertBatch {σ : Type} (db : DB σ) (s : σ) (cars : List Car) : σ × Option Int :=
  if cars.length = 0 then (s, some 0)
  else
    match db.begin s with
    | (s, false) => (s, none)
    | (s, true) =>
      match db.prepare s with
      | (s, false) => (db.rollback s, none)
      | (s, true) =>
        let (s, insertedCount) := cars.foldl (insertStep db) (s, 0)
        match db.commit s with
        | (s, false) => (db.rollback (db.closeStmt s), none)
        | (s, true) => (db.rollback (db.closeStmt s), some insertedCount)

/-- The loop variables of `ScrapeAndStoreCars`, with the arguments of the
`InsertBatch` calls made so far (oldest first). -/
structure ConsumerAcc (σ : Type) where
  store : σ
  totalCount : Int
  insertCalls : List (List Car)

/-- The body of the loop `for batch := range resultsChan` of `ScrapeAndStoreCars`. -/
def consumeBatch {σ : Type} (db : DB σ) (acc : ConsumerAcc σ) (batch : List Car) :
    ConsumerAcc σ :=
  if batch.length = 0 then acc
  else
    let links := batch.map Car.Link
    match FindExistingLinks db acc.store links with
    | (s, none) => { acc with store := s }
    | (s, some existingLinks) =>
      let newCars := batch.filter (fun car => decide (car.Link ∉ existingLinks))
      if newCars.length = 0 then { acc with store := s }
      else
        match InsertBatch db s newCars with
        | (s, none) =>
          { acc with store := s, insertCalls := acc.insertCalls ++ [newCars] }
        | (s, some count) =>
          { store := s, totalCount := acc.totalCount + count,
            insertCalls := acc.insertCalls ++ [newCars] }

/-- The method `carService.ScrapeAndStoreCars` on the batches it receives from
`resultsChan` until the channel is closed and the error `err` it then reads from
`doneChan`: the returned pair, with the store and the `InsertBatch` calls. -/
def ScrapeAndStoreCars {σ ε : Type} (db : DB σ) (s : σ) (batches : List (List Car))
    (err : Option ε) : (Int × Option ε) × ConsumerAcc σ :=
  let acc := batches.foldl (consumeBatch db) ⟨s, 0, []⟩
  ((acc.totalCount, err), acc)

/-! ## Auxiliary definitions used in the statements and proofs -/

/-- The listings of `l` that are new with respect to `seen`: non-empty link, not
in `seen`, not the link of an earlier listing of `l`. -/
def keepNew (seen : Finset String) : List Car → List Car
  | [] => []
  | c :: rest =>
    if c.Link = "" then keepNew seen rest
    else if c.Link ∈ seen then keepNew seen rest
    else c :: keepNew (insert c.Link seen) rest

/-- The non-empty links of a list of listings, as a set. -/
def linkSet (l : List Car) : Finset String :=
  ((l.map Car.Link).filter (fun k => decide (k ≠ ""))).toFinset

/-- Successive calls of `filterDuplicates` on one shared state, one call for each
extracted list: the returned lists in call order and the final state. -/
def filterSession : ScrollState → List (List Car) → List (List Car) × ScrollState
  | state, [] => ([], state)
  | state, l :: rest =>
    let r := filterDuplicates l state
    let q := filterSession r.2 rest
    (r.1 :: q.1, q.2)

/-- The state that `performScrollCycle` hands to `filterDuplicates`: the scroll
counter advanced and the scroll signals updated from the two snapshots. -/
def cycleFilterState (d : DriverCycle) (state : ScrollState) : ScrollState :=
  updateScrollSignals { state with currentScroll := state.currentScroll + 1 }
    (captureDOMState d.preDOMCount d.preScrollY).1
    (captureDOMState d.postDOMCount d.postScrollY).1
    (captureDOMState d.preDOMCount d.preScrollY).2
    (captureDOMState d.postDOMCount d.postScrollY).2

/-- The batches of a session are pairwise link-disjoint, duplicate-free and avoid
the links already seen when the session starts. -/
def FreshBatches (seen : Finset String) (batches : List (List Car)) : Prop :=
  batches.Pairwise (fun a b => ∀ x ∈ a, ∀ y ∈ b, x.Link ≠ y.Link)
  ∧ (∀ b ∈ batches, (b.map Car.Link).Nodup)
  ∧ (∀ b ∈ batches, ∀ x ∈ b, x.Link ∉ seen)

/-- The delay of a session that starts at `InitialDelay`, after cycles that report the
given counts `(new, duplicates, total)`; each step is the controller in int64
arithmetic. -/
def delayAfter (config : ScraperConfig) (counts : List (Int × Int × Int)) : Int :=
  counts.foldl (fun d c => calculateAdaptiveDelay64 d c.1 c.2.1 c.2.2 config)
    config.InitialDelay

/-- A listing of which only the link is filled in. -/
def listing (link : String) : Car :=
  { ID := 0, Title := "", Price := "", Currency := "", Year := "", Mileage := "",
    Location := "", Link := link, CreatedAt := 0, UpdatedAt := 0 }

/-- A cycle in which every driver call succeeds: `domBefore`/`domAfter` anchors and
offsets `yBefore`/`yAfter` around the scroll, and the listings `extracted`. -/
def goodCycle (domBefore yBefore domAfter yAfter : Int) (extracted : List Car) :
    DriverCycle :=
  { preDOMCount := some domBefore, preScrollY := some yBefore, scrollOk := true,
    sleepOk := true, postDOMCount := some domAfter, postScrollY := some yAfter,
    extractOk := true, extracted := extracted }

/-- The default configuration with `SCRAPER_INITIAL_DELAY=10s`. -/
def slowStartConfig : ScraperConfig :=
  { defaultScraperConfig with InitialDelay := 10 * Second }

/-- The default configuration with `SCRAPER_INITIAL_DELAY` and `SCRAPER_MAX_DELAY` at
the largest duration, `2562047h47m16.854775807s` (2^63 - 1 nanoseconds). -/
def longestDelayConfig : ScraperConfig :=
  { defaultScraperConfig with InitialDelay := 2 ^ 63 - 1, MaxDelay := 2 ^ 63 - 1 }

/-- The default configuration with `SCRAPER_INITIAL_DELAY` and `SCRAPER_MIN_DELAY` at
the smallest duration, -2^63 nanoseconds. -/
def lowestDelayConfig : ScraperConfig :=
  { defaultScraperConfig with InitialDelay := -2 ^ 63, MinDelay := -2 ^ 63 }

/-- Twenty-one listings with pairwise different links. -/
def manyListings : List Car :=
  ["a", "b", "c", "d", "e", "f", "g", "h", "i", "j", "k", "l", "m", "n", "o", "p", "q",
    "r", "s", "t", "u"].map listing

/-- A cycle in which the scroll and the wait succeed and the extraction script fails,
leaving `listings` nil. -/
def failedExtractionCycle : DriverCycle :=
  { preDOMCount := some 24, preScrollY := some 0, scrollOk := true, sleepOk := true,
    postDOMCount := some 24, postScrollY := some 800, extractOk := false,
    extracted := [] }

/-- A cycle in which both probes of `captureDOMState` fail, before and after the
scroll, while the scroll, the wait and the extraction succeed. -/
def failedProbeCycle : DriverCycle :=
  { preDOMCount := none, preScrollY := none, scrollOk := true, sleepOk := true,
    postDOMCount := none, postScrollY := none, extractOk := true,
    extracted := [listing "https://www.facebook.com/marketplace/item/1/"] }

/-! ### The ingestion consumer, as the specification words it -/

/-- The records of a batch whose link is not in the set of existing links, in batch
order. -/
def remainingRecords (existing : Finset String) (batch : List Car) : List Car :=
  batch.filter (fun car => decide (car.Link ∉ existing))

/-- The contribution of one batch to the total and the store it leaves: 0 when the
batch is empty, when the lookup of existing links fails, when no record remains, or
when `InsertBatch` fails; otherwise the count `InsertBatch` returns for the remaining
records. -/
def batchContribution {σ : Type} (db : DB σ) (s : σ) (batch : List Car) : Int × σ :=
  if batch = [] then (0, s)
  else
    match FindExistingLinks db s (batch.map Car.Link) with
    | (s, none) => (0, s)
    | (s, some existing) =>
      if remainingRecords existing batch = [] then (0, s)
      else
        match InsertBatch db s (remainingRecords existing batch) with
        | (s, none) => (0, s)
        | (s, some count) => (count, s)

/-- The contributions of the batches of a session, in arrival order. -/
def batchContributions {σ : Type} (db : DB σ) : σ → List (List Car) → List Int
  | _, [] => []
  | s, batch :: rest =>
    (batchContribution db s batch).1
      :: batchContributions db (batchContribution db s batch).2 rest

/-- The argument of the single `InsertBatch` call made for a batch, if one is made:
the remaining records of a non-empty batch whose lookup succeeded and left some. -/
def batchInsertCall {σ : Type} (db : DB σ) (s : σ) (batch : List Car) :
    Option (List Car) :=
  if batch = [] then none
  else
    match FindExistingLinks db s (batch.map Car.Link) with
    | (_, none) => none
    | (_, some existing) =>
      if remainingRecords existing batch = [] then none
      else some (remainingRecords existing batch)

/-- The `InsertBatch` calls of a session, in arrival order of their batches. -/
def expectedInsertCalls {σ : Type} (db : DB σ) : σ → List (List Car) → List (List Car)
  | _, [] => []
  | s, batch :: rest =>
    (batchInsertCall db s batch).toList
      ++ expectedInsertCalls db (batchContribution db s batch).2 rest

/-- The outcomes of the individual inserts of `cars`, executed one after the other
from the store `s`. -/
def execOutcomes {σ : Type} (db : DB σ) : σ → List Car → List (Option Int)
  | _, [] => []
  | s, car :: rest => (db.exec s car).2 :: execOutcomes db (db.exec s car).1 rest

/-- The number of records of `cars` whose individual insert, inside the transaction
opened on the store `s`, succeeded and affected a row. -/
def insertedRecords {σ : Type} (db : DB σ) (s : σ) (cars : List Car) : Int :=
  ((execOutcomes db (db.prepare (db.begin s).1).1 cars).filter
    (fun r => decide (r = some 1))).length

/-- A store for scenario D: its state is the list of stored links; the lookup and the
transaction calls succeed, an insert fails for the link `"d"`, is ignored for a stored
link and stores any other link. -/
def scenarioStore : DB (List String) :=
  { queryLinks := fun s links => (s, some (links.filter (fun k => decide (k ∈ s))))
    begin := fun s => (s, true)
    prepare := fun s => (s, true)
    exec := fun s car =>
      if car.Link = "d" then (s, none)
      else if car.Link ∈ s then (s, some 0)
      else (car.Link :: s, some 1)
    commit := fun s => (s, true)
    closeStmt := fun s => s
    rollback := fun s => s }

/-- The batch of scenario D: five listings with the links a, b, c, d, e. -/
def scenarioBatch : List Car :=
  [listing "a", listing "b", listing "c", listing "d", listing "e"]

/-! ### Configuration loading (`config/config.go`) -/

/-- The function `strconv.Atoi` on a 64-bit platform: an optional sign followed by
one or more decimal digits, the value within the int64 range; `none` is an error. -/
def atoi (s : String) : Option Int :=
  let signed : Bool × List Char :=
    match s.toList with
    | '-' :: rest => (true, rest)
    | '+' :: rest => (false, rest)
    | cs => (false, cs)
  if signed.2 = [] ∨ signed.2.all Char.isDigit = false then none
  else
    let n : Nat := signed.2.foldl (fun acc c => 10 * acc + (c.toNat - 48)) 0
    let v : Int := if signed.1 = true then -(n : Int) else (n : Int)
    if v < -2 ^ 63 ∨ v > 2 ^ 63 - 1 then none else some v

/-- The function `getEnvInt`; `getenv` is `os.Getenv` (the empty string for an unset
variable). -/
def getEnvInt (getenv : String → String) (key : String) (defaultValue : Int) : Int :=
  if getenv key ≠ "" then
    match atoi (getenv key) with
    | some intValue => intValue
    | none => defaultValue
  else defaultValue

/-- The function `getEnvDuration`; `parseDuration` is `time.ParseDuration` of the
standard library (`none` is an error). -/
def getEnvDuration (getenv : String → String) (parseDuration : String → Option Int)
    (key : String) (defaultValue : Int) : Int :=
  if getenv key ≠ "" then
    match parseDuration (getenv key) with
    | some duration => duration
    | none => defaultValue
  else defaultValue

/-- The function `loadScraperConfig`. -/
def loadScraperConfig (getenv : String → String) (parseDuration : String → Option Int) :
    ScraperConfig :=
  { MaxScrolls := getEnvInt getenv "SCRAPER_MAX_SCROLLS" 2000
    MaxDuration := getEnvDuration getenv parseDuration "SCRAPER_MAX_DURATION" (60 * Minute)
    InitialDelay :=
      getEnvDuration getenv parseDuration "SCRAPER_INITIAL_DELAY" (2 * Second)
    MinDelay :=
      getEnvDuration getenv parseDuration "SCRAPER_MIN_DELAY" (1500 * Millisecond)
    MaxDelay := getEnvDuration getenv parseDuration "SCRAPER_MAX_DELAY" (5 * Second)
    MaxConsecutiveNoNew := getEnvInt getenv "SCRAPER_MAX_CONSECUTIVE_NO_NEW" 10
    MaxConsecutiveUnchanged := getEnvInt getenv "SCRAPER_MAX_CONSECUTIVE_UNCHANGED" 10
    ExtractionInterval := getEnvInt getenv "SCRAPER_EXTRACTION_INTERVAL" 5 }

/-- An environment in which only `SCRAPER_EXTRACTION_INTERVAL=0` is set. -/
def zeroIntervalEnv (key : String) : String :=
  if key = "SCRAPER_EXTRACTION_INTERVAL" then "0" else ""

/-- A duration parser that rejects every string; it is never consulted under
`zeroIntervalEnv`, where no duration variable is set. -/
def rejectDuration (_ : String) : Option Int := none

/-! ### Runs of consecutive cycles -/

/-- The two snapshots around one scroll: DOM count and scroll offset, before and
after. -/
structure Snapshots where
  prevDOMCount : Int
  currDOMCount : Int
  prevScrollY : Int
  currScrollY : Int

/-- A cycle that leaves the page as it found it: the DOM count is the same non-zero
number before and after the scroll, and so is the scroll offset. -/
def Snapshots.Stuck (p : Snapshots) : Prop :=
  p.currDOMCount = p.prevDOMCount ∧ p.prevDOMCount > 0
  ∧ p.currScrollY = p.prevScrollY ∧ p.prevScrollY > 0

/-- The effect of `updateScrollSignals` over consecutive cycles, given the snapshots
of each cycle. -/
def updateSignalsOver (state : ScrollState) (snaps : List Snapshots) : ScrollState :=
  snaps.foldl (fun st p =>
    updateScrollSignals st p.prevDOMCount p.currDOMCount p.prevScrollY p.currScrollY) state

/-- Consecutive calls of `performScrollCycle` on one state, as long as they return
nil: the state after the last call made. -/
def runCycles (config : ScraperConfig) : ScrollState → List DriverCycle → ScrollState
  | state, [] => state
  | state, d :: rest =>
    match (performScrollCycle d state config).status with
    | CycleStatus.ok => runCycles config (performScrollCycle d state config).state rest
    | _ => (performScrollCycle d state config).state

/-- A cycle whose driver calls all succeed and that leaves the page as it found it:
same non-zero DOM count and same non-zero scroll offset before and after. -/
def DriverCycle.Stuck (d : DriverCycle) : Prop :=
  d.scrollOk = true ∧ d.sleepOk = true
  ∧ ∃ c y : Int, c > 0 ∧ y > 0
    ∧ d.preDOMCount = some c ∧ d.postDOMCount = some c
    ∧ d.preScrollY = some y ∧ d.postScrollY = some y

/-! ## Deduplication: lemmas -/

theorem linkSet_nil : linkSet [] = ∅ := rfl

theorem linkSet_cons (c : Car) (l : List Car) :
    linkSet (c :: l) = if c.Link = "" then linkSet l else insert c.Link (linkSet l) := by
  unfold linkSet
  by_cases h : c.Link = ""
  · simp [h]
  · simp [h, List.filter_cons]

theorem mem_linkSet {k : String} {l : List Car} :
    k ∈ linkSet l ↔ k ≠ "" ∧ ∃ c ∈ l, c.Link = k := by
  unfold linkSet
  simp only [List.mem_toFinset, List.mem_filter, List.mem_map, decide_eq_true_eq]
  tauto

theorem linkSet_append (l₁ l₂ : List Car) :
    linkSet (l₁ ++ l₂) = linkSet l₁ ∪ linkSet l₂ := by
  ext k
  simp only [mem_linkSet, Finset.mem_union, List.mem_append]
  constructor
  · rintro ⟨hk, c, hc | hc, rfl⟩
    · exact Or.inl ⟨hk, c, hc, rfl⟩
    · exact Or.inr ⟨hk, c, hc, rfl⟩
  · rintro (⟨hk, c, hc, rfl⟩ | ⟨hk, c, hc, rfl⟩)
    · exact ⟨hk, c, Or.inl hc, rfl⟩
    · exact ⟨hk, c, Or.inr hc, rfl⟩

/-- What the loop of `filterDuplicates` computes from arbitrary loop variables. -/
theorem foldl_filterStep (l : List Car) (acc : FilterAcc) :
    (l.foldl filterStep acc).newListings
        = acc.newListings ++ keepNew acc.state.seenURLs l
    ∧ (l.foldl filterStep acc).state
        = { acc.state with
            seenURLs := acc.state.seenURLs ∪ linkSet l
            totalItemsFound :=
              acc.state.totalItemsFound + (keepNew acc.state.seenURLs l).length }
    ∧ (l.foldl filterStep acc).duplicateCount
        = acc.duplicateCount
          + (((l.filter (fun c => decide (c.Link ≠ ""))).length : Int)
              - (keepNew acc.state.seenURLs l).length) := by
  induction l generalizing acc with
  | nil => simp [keepNew, linkSet_nil]
  | cons c rest ih =>
    rw [List.foldl_cons]
    obtain ⟨h1, h2, h3⟩ := ih (filterStep acc c)
    rw [h1, h2, h3]
    by_cases hc : c.Link = ""
    · simp [filterStep, keepNew, linkSet_cons, hc]
    · by_cases hs : c.Link ∈ acc.state.seenURLs
      · have hins : acc.state.seenURLs ∪ insert c.Link (linkSet rest)
            = acc.state.seenURLs ∪ linkSet rest := by
          ext k
          simp only [Finset.mem_union, Finset.mem_insert]
          constructor
          · rintro (h | rfl | h)
            · exact Or.inl h
            · exact Or.inl hs
            · exact Or.inr h
          · rintro (h | h)
            · exact Or.inl h
            · exact Or.inr (Or.inr h)
        simp only [filterStep, keepNew, linkSet_cons, hc, hs, if_true, if_false, hins,
          List.filter_cons, ne_eq, not_false_eq_true, decide_True, List.length_cons,
          Nat.cast_add, Nat.cast_one, true_and]
        ring
      · have hins : insert c.Link acc.state.seenURLs ∪ linkSet rest
            = acc.state.seenURLs ∪ insert c.Link (linkSet rest) := by
          ext k
          simp only [Finset.mem_union, Finset.mem_insert]
          tauto
        simp only [filterStep, keepNew, linkSet_cons, hc, hs, if_false, hins,
          List.filter_cons, ne_eq, not_false_eq_true, decide_True, List.length_cons,
          Nat.cast_add, Nat.cast_one, List.append_assoc, List.singleton_append, true_and,
          if_true]
        refine ⟨?_, ?_⟩
        · congr 1
          ring
        · ring

theorem filterDuplicates_fst (l : List Car) (state : ScrollState) :
    (filterDuplicates l state).1 = keepNew state.seenURLs l := by
  have h := (foldl_filterStep l ⟨state, [], 0⟩).1
  simpa [filterDuplicates] using h

theorem filterDuplicates_snd (l : List Car) (state : ScrollState) :
    (filterDuplicates l state).2
      = { state with
          seenURLs := state.seenURLs ∪ linkSet l
          totalItemsFound := state.totalItemsFound + (keepNew state.seenURLs l).length
          totalDuplicates :=
            ((l.filter (fun c => decide (c.Link ≠ ""))).length : Int)
              - (keepNew state.seenURLs l).length } := by
  obtain ⟨-, h2, h3⟩ := foldl_filterStep l ⟨state, [], 0⟩
  simp only [filterDuplicates, h2, h3, zero_add]

/-- The index form of `keepNew`, for a list that continues the listings `pre`. -/
theorem keepNew_enumFrom (seen : Finset String) (l pre : List Car) :
    keepNew (seen ∪ linkSet pre) l
      = ((l.enumFrom pre.length).filter (fun p =>
          decide (p.2.Link ≠ "" ∧ p.2.Link ∉ seen
            ∧ p.2.Link ∉ ((pre ++ l).take p.1).map Car.Link))).map Prod.snd := by
  induction l generalizing pre with
  | nil => simp [keepNew]
  | cons c rest ih =>
    have hrest := ih (pre ++ [c])
    simp only [List.length_append, List.length_singleton, List.append_assoc,
      List.singleton_append] at hrest
    have htake : (pre ++ c :: rest).take pre.length = pre := by
      simp
    have hmem : c.Link ∈ linkSet pre ↔ c.Link ≠ "" ∧ c.Link ∈ pre.map Car.Link := by
      rw [mem_linkSet]
      simp
    have hset : seen ∪ linkSet (pre ++ [c])
        = if c.Link = "" then seen ∪ linkSet pre
          else insert c.Link (seen ∪ linkSet pre) := by
      ext k
      by_cases hc : c.Link = ""
      · simp [linkSet_append, linkSet_cons, linkSet_nil, hc]
      · simp only [linkSet_append, linkSet_cons, linkSet_nil, hc, if_false,
          Finset.mem_union, Finset.mem_insert, Finset.not_mem_empty, or_false]
        tauto
    rw [List.enumFrom_cons, List.filter_cons]
    simp only [htake]
    split_ifs with hcond
    · rw [List.map_cons, ← hrest]
      simp only [decide_eq_true_eq] at hcond
      obtain ⟨hc, hs, hp⟩ := hcond
      have hnin : c.Link ∉ seen ∪ linkSet pre := by
        simp only [Finset.mem_union, not_or]
        exact ⟨hs, fun h => hp (hmem.1 h).2⟩
      rw [hset]
      simp [keepNew, hc, hnin]
    · rw [← hrest]
      simp only [decide_eq_true_eq] at hcond
      by_cases hc : c.Link = ""
      · rw [hset]
        simp [keepNew, hc]
      · have hin : c.Link ∈ seen ∪ linkSet pre := by
          by_contra hnin
          simp only [Finset.mem_union, not_or] at hnin
          exact hcond ⟨hc, hnin.1, fun hp => hnin.2 (hmem.2 ⟨hc, hp⟩)⟩
        rw [hset]
        simp [keepNew, hc, hin]

theorem keepNew_enum (seen : Finset String) (l : List Car) :
    keepNew seen l
      = (l.enum.filter (fun p =>
          decide (p.2.Link ≠ "" ∧ p.2.Link ∉ seen
            ∧ p.2.Link ∉ (l.take p.1).map Car.Link))).map Prod.snd := by
  have h := keepNew_enumFrom seen l []
  simpa [linkSet_nil, List.enum] using h

/-! ## Scroll signals and the cycle: lemmas -/

theorem updateScrollSignals_eq (state : ScrollState)
    (prevDOMCount currDOMCount prevScrollY currScrollY : Int) :
    updateScrollSignals state prevDOMCount currDOMCount prevScrollY currScrollY
      = { state with
          consecutiveUnchangedDOM :=
            if currDOMCount = prevDOMCount ∧ prevDOMCount > 0 then
              state.consecutiveUnchangedDOM + 1 else 0
          consecutiveScrollNoMove :=
            if currScrollY = prevScrollY ∧ prevScrollY > 0 then
              state.consecutiveScrollNoMove + 1 else 0
          previousDOMCount := currDOMCount
          previousScrollY := currScrollY } := by
  unfold updateScrollSignals
  split_ifs <;> rfl

theorem performScrollCycle_failed (d : DriverCycle) (state : ScrollState)
    (config : ScraperConfig) (h : ¬ (d.scrollOk = true ∧ d.sleepOk = true)) :
    performScrollCycle d state config
      = { state := state, published := none, status := CycleStatus.driverError } := by
  unfold performScrollCycle
  simp only [h, not_false_eq_true, if_true]

theorem performScrollCycle_run (d : DriverCycle) (state : ScrollState)
    (config : ScraperConfig) (h : d.scrollOk = true ∧ d.sleepOk = true) :
    (performScrollCycle d state config).published
        = (if (filterDuplicates (extractListings d) (cycleFilterState d state)).1.length = 0
            then none
            else some (filterDuplicates (extractListings d) (cycleFilterState d state)).1)
    ∧ (performScrollCycle d state config).state.seenURLs
        = (filterDuplicates (extractListings d) (cycleFilterState d state)).2.seenURLs
    ∧ (performScrollCycle d state config).state.consecutiveNoNewItems
        = (if (filterDuplicates (extractListings d) (cycleFilterState d state)).1.length = 0
            then (cycleFilterState d state).consecutiveNoNewItems + 1
            else 0)
    ∧ (performScrollCycle d state config).state.currentDelay
        = calculateAdaptiveDelay64 (cycleFilterState d state).currentDelay
            (filterDuplicates (extractListings d) (cycleFilterState d state)).1.length
            (filterDuplicates (extractListings d) (cycleFilterState d state)).2.totalDuplicates
            (extractListings d).length config
    ∧ (performScrollCycle d state config).status ≠ CycleStatus.driverError := by
  unfold performScrollCycle cycleFilterState
  simp only [h, and_self, not_true_eq_false, if_false, filterDuplicates_snd]
  split_ifs <;> simp_all [logProgress]

/-! ## Sessions: lemmas -/

theorem keepNew_links (seen : Finset String) (l : List Car) :
    ((keepNew seen l).map Car.Link).Nodup
    ∧ ∀ c ∈ keepNew seen l, c.Link ∉ seen ∧ c.Link ∈ linkSet l := by
  induction l generalizing seen with
  | nil => simp [keepNew]
  | cons c rest ih =>
    by_cases hc : c.Link = ""
    · obtain ⟨h1, h2⟩ := ih seen
      simpa [keepNew, hc, linkSet_cons] using And.intro h1 h2
    · by_cases hs : c.Link ∈ seen
      · obtain ⟨h1, h2⟩ := ih seen
        simp only [keepNew, hc, hs, if_true, if_false, linkSet_cons, Finset.mem_insert]
        exact ⟨h1, fun x hx => ⟨(h2 x hx).1, Or.inr (h2 x hx).2⟩⟩
      · obtain ⟨h1, h2⟩ := ih (insert c.Link seen)
        simp only [keepNew, hc, hs, if_false, linkSet_cons, Finset.mem_insert,
          List.map_cons, List.nodup_cons, List.mem_cons, List.mem_map]
        refine ⟨⟨?_, h1⟩, ?_⟩
        · rintro ⟨x, hx, hxc⟩
          exact (h2 x hx).1 (by rw [hxc]; exact Finset.mem_insert_self _ _)
        · rintro x (rfl | hx)
          · exact ⟨hs, Or.inl rfl⟩
          · exact ⟨fun h => (h2 x hx).1 (Finset.mem_insert_of_mem h), Or.inr (h2 x hx).2⟩

theorem keepNew_length (seen : Finset String) (l : List Car) :
    (keepNew seen l).length + seen.card = (seen ∪ linkSet l).card := by
  induction l generalizing seen with
  | nil => simp [keepNew, linkSet_nil]
  | cons c rest ih =>
    by_cases hc : c.Link = ""
    · simpa [keepNew, hc, linkSet_cons] using ih seen
    · by_cases hs : c.Link ∈ seen
      · have hins : seen ∪ insert c.Link (linkSet rest) = seen ∪ linkSet rest := by
          ext k
          simp only [Finset.mem_union, Finset.mem_insert]
          constructor
          · rintro (h | rfl | h)
            · exact Or.inl h
            · exact Or.inl hs
            · exact Or.inr h
          · rintro (h | h)
            · exact Or.inl h
            · exact Or.inr (Or.inr h)
        simpa [keepNew, hc, hs, linkSet_cons, hins] using ih seen
      · have hins : seen ∪ insert c.Link (linkSet rest)
            = insert c.Link seen ∪ linkSet rest := by
          ext k
          simp only [Finset.mem_union, Finset.mem_insert]
          tauto
        have h := ih (insert c.Link seen)
        rw [Finset.card_insert_of_not_mem hs] at h
        simp only [keepNew, hc, hs, if_false, linkSet_cons, hins, List.length_cons]
        omega

theorem FreshBatches.nil (seen : Finset String) : FreshBatches seen [] :=
  ⟨List.Pairwise.nil, by simp, by simp⟩

/-- A fresh batch list stays fresh when a batch returned by `filterDuplicates` on
the preceding state is put in front of it. -/
theorem FreshBatches.cons (seen : Finset String) (l : List Car)
    (batches : List (List Car)) (h : FreshBatches (seen ∪ linkSet l) batches) :
    FreshBatches seen (keepNew seen l :: batches) := by
  obtain ⟨hp, hn, hf⟩ := h
  obtain ⟨k1, k2⟩ := keepNew_links seen l
  refine ⟨List.Pairwise.cons ?_ hp, ?_, ?_⟩
  · intro b hb x hx y hy hxy
    exact hf b hb y hy (by rw [← hxy]; exact Finset.mem_union_right _ (k2 x hx).2)
  · intro b hb
    rcases List.mem_cons.1 hb with rfl | hb
    · exact k1
    · exact hn b hb
  · intro b hb x hx
    rcases List.mem_cons.1 hb with rfl | hb
    · exact (k2 x hx).1
    · exact fun h => hf b hb x hx (Finset.mem_union_left _ h)

theorem FreshBatches.mono {seen seen2 : Finset String} {batches : List (List Car)}
    (h : FreshBatches seen2 batches) (hsub : seen ⊆ seen2) : FreshBatches seen batches :=
  ⟨h.1, h.2.1, fun b hb x hx hm => h.2.2 b hb x hx (hsub hm)⟩

theorem filterSession_fresh (state : ScrollState) (lists : List (List Car)) :
    FreshBatches state.seenURLs (filterSession state lists).1 := by
  induction lists generalizing state with
  | nil => exact FreshBatches.nil _
  | cons l rest ih =>
    have h := ih (filterDuplicates l state).2
    rw [filterDuplicates_snd] at h
    simp only [filterSession, filterDuplicates_fst]
    rw [filterDuplicates_snd]
    exact FreshBatches.cons _ _ _ h

theorem cycleFilterState_seenURLs (d : DriverCycle) (state : ScrollState) :
    (cycleFilterState d state).seenURLs = state.seenURLs := by
  simp [cycleFilterState, updateScrollSignals_eq]

theorem scrapeLoop_fresh (config : ScraperConfig) (state : ScrollState)
    (inputs : List CycleInput) :
    FreshBatches state.seenURLs (scrapeLoop config state inputs).batches := by
  induction inputs generalizing state with
  | nil => exact FreshBatches.nil _
  | cons c rest ih =>
    unfold scrapeLoop
    by_cases hstop : shouldStopScraping state config c.elapsed = true
    · simp only [hstop, if_true]
      exact FreshBatches.nil _
    · simp only [hstop, if_false]
      by_cases hok : c.driver.scrollOk = true ∧ c.driver.sleepOk = true
      · obtain ⟨hpub, hseen, -, -, hst⟩ := performScrollCycle_run c.driver state config hok
        have hrest := ih (performScrollCycle c.driver state config).state
        rw [hseen, filterDuplicates_snd] at hrest
        simp only [cycleFilterState_seenURLs] at hrest
        rw [filterDuplicates_fst, cycleFilterState_seenURLs] at hpub
        have hall : FreshBatches state.seenURLs
            ((performScrollCycle c.driver state config).published.toList
              ++ (scrapeLoop config (performScrollCycle c.driver state config).state
                    rest).batches) := by
          rw [hpub]
          split_ifs with hlen
          · exact FreshBatches.mono hrest Finset.subset_union_left
          · exact FreshBatches.cons _ _ _ hrest
        have hone : FreshBatches state.seenURLs
            (performScrollCycle c.driver state config).published.toList := by
          rw [hpub]
          split_ifs with hlen
          · exact FreshBatches.nil _
          · exact FreshBatches.cons _ _ _ (FreshBatches.nil _)
        cases hs : (performScrollCycle c.driver state config).status with
        | ok => simpa [hs] using hall
        | driverError => exact absurd hs hst
        | divideByZero => simpa [hs] using hone
      · rw [performScrollCycle_failed c.driver state config hok]
        exact FreshBatches.nil _

theorem filterSession_state (state : ScrollState) (lists : List (List Car)) :
    (filterSession state lists).2.seenURLs = state.seenURLs ∪ linkSet lists.flatten
    ∧ (filterSession state lists).2.totalItemsFound + state.seenURLs.card
        = state.totalItemsFound + (state.seenURLs ∪ linkSet lists.flatten).card := by
  induction lists generalizing state with
  | nil => simp [filterSession, linkSet_nil]
  | cons l rest ih =>
    obtain ⟨h1, h2⟩ := ih (filterDuplicates l state).2
    have hs : (filterDuplicates l state).2.seenURLs = state.seenURLs ∪ linkSet l := by
      rw [filterDuplicates_snd]
    have ht : (filterDuplicates l state).2.totalItemsFound
        = state.totalItemsFound + (keepNew state.seenURLs l).length := by
      rw [filterDuplicates_snd]
    rw [hs] at h1 h2
    rw [ht] at h2
    have hlen := keepNew_length state.seenURLs l
    simp only [filterSession, List.flatten_cons, linkSet_append, ← Finset.union_assoc]
    refine ⟨h1, ?_⟩
    have hcast : ((keepNew state.seenURLs l).length : Int) + (state.seenURLs.card : Int)
        = ((state.seenURLs ∪ linkSet l).card : Int) := by
      exact_mod_cast hlen
    linarith

/-! ## The claims on deduplication -/

/-- C1: in every session the batches published on the results channel are pairwise
link-disjoint and no batch holds a link twice; the same holds for the lists returned
by any sequence of `filterDuplicates` calls on one shared state. -/
theorem published_batches_disjoint (config : ScraperConfig) (state : ScrollState)
    (inputs : List CycleInput) (lists : List (List Car)) :
    ((scrapeLoop config state inputs).batches.Pairwise
        (fun a b => ∀ x ∈ a, ∀ y ∈ b, x.Link ≠ y.Link)
      ∧ ∀ b ∈ (scrapeLoop config state inputs).batches, (b.map Car.Link).Nodup)
    ∧ ((filterSession state lists).1.Pairwise
        (fun a b => ∀ x ∈ a, ∀ y ∈ b, x.Link ≠ y.Link)
      ∧ ∀ b ∈ (filterSession state lists).1, (b.map Car.Link).Nodup) :=
  ⟨⟨(scrapeLoop_fresh config state inputs).1, (scrapeLoop_fresh config state inputs).2.1⟩,
   ⟨(filterSession_fresh state lists).1, (filterSession_fresh state lists).2.1⟩⟩

/-- C2: `filterDuplicates` returns, in extraction order, exactly the listings whose
link is non-empty, not yet in `seenURLs` and not the link of an earlier listing of the
same list; afterwards `seenURLs` is the old set plus every non-empty link of the list,
`totalItemsFound` has grown by the number of returned listings and `totalDuplicates`
is the number of non-empty-link listings that were not returned. -/
theorem filterDuplicates_spec (allListings : List Car) (state : ScrollState) :
    (filterDuplicates allListings state).1
        = (allListings.enum.filter (fun p =>
            decide (p.2.Link ≠ "" ∧ p.2.Link ∉ state.seenURLs
              ∧ p.2.Link ∉ (allListings.take p.1).map Car.Link))).map Prod.snd
    ∧ (filterDuplicates allListings state).2.seenURLs
        = state.seenURLs
          ∪ ((allListings.map Car.Link).filter (fun k => decide (k ≠ ""))).toFinset
    ∧ (filterDuplicates allListings state).2.totalItemsFound
        = state.totalItemsFound + (filterDuplicates allListings state).1.length
    ∧ (filterDuplicates allListings state).2.totalDuplicates
        = ((allListings.filter (fun c => decide (c.Link ≠ ""))).length : Int)
          - (filterDuplicates allListings state).1.length := by
  refine ⟨?_, ?_, ?_, ?_⟩
  · rw [filterDuplicates_fst, keepNew_enum]
  · rw [filterDuplicates_snd]
    rfl
  · rw [filterDuplicates_snd, filterDuplicates_fst]
  · rw [filterDuplicates_snd, filterDuplicates_fst]

/-- C8: along any sequence of `filterDuplicates` calls that starts with an empty
`seenURLs` and `totalItemsFound = 0`, each call leaves a superset of the set it found
(so the size never decreases), and after the call the size of `seenURLs` equals
`totalItemsFound` and the number of distinct non-empty links extracted so far. -/
theorem seenURLs_monotone_card (state : ScrollState) (lists : List (List Car))
    (l : List Car) (hseen : state.seenURLs = ∅) (hfound : state.totalItemsFound = 0) :
    (filterSession state lists).2.seenURLs
        ⊆ (filterDuplicates l (filterSession state lists).2).2.seenURLs
    ∧ (filterSession state lists).2.seenURLs.card
        ≤ (filterDuplicates l (filterSession state lists).2).2.seenURLs.card
    ∧ ((filterDuplicates l (filterSession state lists).2).2.seenURLs.card : Int)
        = (filterDuplicates l (filterSession state lists).2).2.totalItemsFound
    ∧ (filterDuplicates l (filterSession state lists).2).2.seenURLs.card
        = ((((lists.flatten ++ l).map Car.Link).filter
            (fun k => decide (k ≠ ""))).toFinset).card := by
  obtain ⟨h1, h2⟩ := filterSession_state state lists
  have hsub : (filterSession state lists).2.seenURLs
      ⊆ (filterDuplicates l (filterSession state lists).2).2.seenURLs := by
    rw [filterDuplicates_snd]
    exact Finset.subset_union_left
  have hlen := keepNew_length (filterSession state lists).2.seenURLs l
  have hset : (filterDuplicates l (filterSession state lists).2).2.seenURLs
      = linkSet (lists.flatten ++ l) := by
    rw [filterDuplicates_snd, linkSet_append, h1, hseen]
    simp
  refine ⟨hsub, Finset.card_le_card hsub, ?_, ?_⟩
  · rw [hseen, hfound] at h2
    simp only [Finset.card_empty, Nat.cast_zero, add_zero, zero_add] at h2
    rw [filterDuplicates_snd]
    simp only
    have hcast : ((keepNew (filterSession state lists).2.seenURLs l).length : Int)
        + ((filterSession state lists).2.seenURLs.card : Int)
        = (((filterSession state lists).2.seenURLs ∪ linkSet l).card : Int) := by
      exact_mod_cast hlen
    rw [h1, hseen] at hcast ⊢
    simp only [Finset.empty_union] at hcast h2 ⊢
    linarith
  · rw [hset]
    rfl

/-- C8 at a concrete session: two calls, the second one re-extracting a link. -/
theorem seenURLs_monotone_card_witness :
    (initialState defaultScraperConfig 0).seenURLs = ∅
    ∧ (initialState defaultScraperConfig 0).totalItemsFound = 0
    ∧ ((filterDuplicates [⟨0, "", "", "", "", "", "", "a", 0, 0⟩, ⟨0, "", "", "", "", "", "", "b", 0, 0⟩]
          (filterSession (initialState defaultScraperConfig 0)
            [[⟨0, "", "", "", "", "", "", "a", 0, 0⟩]]).2).2.seenURLs.card : Int)
        = (filterDuplicates [⟨0, "", "", "", "", "", "", "a", 0, 0⟩, ⟨0, "", "", "", "", "", "", "b", 0, 0⟩]
          (filterSession (initialState defaultScraperConfig 0)
            [[⟨0, "", "", "", "", "", "", "a", 0, 0⟩]]).2).2.totalItemsFound :=
  ⟨rfl, rfl,
    (seenURLs_monotone_card (initialState defaultScraperConfig 0)
      [[⟨0, "", "", "", "", "", "", "a", 0, 0⟩]]
      [⟨0, "", "", "", "", "", "", "a", 0, 0⟩, ⟨0, "", "", "", "", "", "", "b", 0, 0⟩]
      rfl rfl).2.2.1⟩

/-! ## Stop condition, scroll signals, adaptive delay -/

/-- C3: `shouldStopScraping` answers true exactly when a hard stop is reached or at
least two of the three soft signals are at their thresholds; with the hard stops not
reached, one signal alone does not halt and any two do. -/
theorem shouldStopScraping_iff (state : ScrollState) (config : ScraperConfig)
    (elapsed : Int) :
    (shouldStopScraping state config elapsed = true ↔
      state.currentScroll ≥ config.MaxScrolls ∨ elapsed ≥ config.MaxDuration
      ∨ (state.consecutiveNoNewItems ≥ config.MaxConsecutiveNoNew
          ∧ state.consecutiveUnchangedDOM ≥ config.MaxConsecutiveUnchanged)
      ∨ (state.consecutiveNoNewItems ≥ config.MaxConsecutiveNoNew
          ∧ state.consecutiveScrollNoMove ≥ 10)
      ∨ (state.consecutiveUnchangedDOM ≥ config.MaxConsecutiveUnchanged
          ∧ state.consecutiveScrollNoMove ≥ 10))
    ∧ (state.currentScroll < config.MaxScrolls → elapsed < config.MaxDuration →
        ((state.consecutiveNoNewItems ≥ config.MaxConsecutiveNoNew
            ∧ state.consecutiveUnchangedDOM < config.MaxConsecutiveUnchanged
            ∧ state.consecutiveScrollNoMove < 10)
          ∨ (state.consecutiveNoNewItems < config.MaxConsecutiveNoNew
            ∧ state.consecutiveUnchangedDOM ≥ config.MaxConsecutiveUnchanged
            ∧ state.consecutiveScrollNoMove < 10)
          ∨ (state.consecutiveNoNewItems < config.MaxConsecutiveNoNew
            ∧ state.consecutiveUnchangedDOM < config.MaxConsecutiveUnchanged
            ∧ state.consecutiveScrollNoMove ≥ 10)) →
        shouldStopScraping state config elapsed = false)
    ∧ (state.currentScroll < config.MaxScrolls → elapsed < config.MaxDuration →
        ((state.consecutiveNoNewItems ≥ config.MaxConsecutiveNoNew
            ∧ state.consecutiveUnchangedDOM ≥ config.MaxConsecutiveUnchanged)
          ∨ (state.consecutiveNoNewItems ≥ config.MaxConsecutiveNoNew
            ∧ state.consecutiveScrollNoMove ≥ 10)
          ∨ (state.consecutiveUnchangedDOM ≥ config.MaxConsecutiveUnchanged
            ∧ state.consecutiveScrollNoMove ≥ 10)) →
        shouldStopScraping state config elapsed = true) := by
  have key : shouldStopScraping state config elapsed = true ↔
      state.currentScroll ≥ config.MaxScrolls ∨ elapsed ≥ config.MaxDuration
      ∨ (state.consecutiveNoNewItems ≥ config.MaxConsecutiveNoNew
          ∧ state.consecutiveUnchangedDOM ≥ config.MaxConsecutiveUnchanged)
      ∨ (state.consecutiveNoNewItems ≥ config.MaxConsecutiveNoNew
          ∧ state.consecutiveScrollNoMove ≥ 10)
      ∨ (state.consecutiveUnchangedDOM ≥ config.MaxConsecutiveUnchanged
          ∧ state.consecutiveScrollNoMove ≥ 10) := by
    unfold shouldStopScraping
    by_cases h1 : state.currentScroll ≥ config.MaxScrolls
    · simp [h1]
    · by_cases h2 : elapsed ≥ config.MaxDuration
      · simp [h2]
      · by_cases hA : state.consecutiveUnchangedDOM ≥ config.MaxConsecutiveUnchanged <;>
        by_cases hB : state.consecutiveNoNewItems ≥ config.MaxConsecutiveNoNew <;>
        by_cases hC : state.consecutiveScrollNoMove ≥ 10 <;>
        simp [h1, h2, hA, hB, hC]
  refine ⟨key, ?_, ?_⟩
  · intro h1 h2 h
    rw [Bool.eq_false_iff]
    intro hstop
    rcases key.1 hstop with h3 | h3 | h3 | h3 | h3 <;> omega
  · intro _ _ h
    exact key.2 (Or.inr (Or.inr h))

/-- C3 on concrete sessions with the default thresholds: one signal alone (no new
items for 10 cycles) does not halt, two signals do. -/
theorem shouldStopScraping_iff_witness :
    shouldStopScraping
        { initialState defaultScraperConfig 0 with consecutiveNoNewItems := 10 }
        defaultScraperConfig 0 = false
    ∧ shouldStopScraping
        { initialState defaultScraperConfig 0 with
          consecutiveNoNewItems := 10, consecutiveScrollNoMove := 10 }
        defaultScraperConfig 0 = true :=
  ⟨(shouldStopScraping_iff
      { initialState defaultScraperConfig 0 with consecutiveNoNewItems := 10 }
      defaultScraperConfig 0).2.1 (by decide) (by decide) (Or.inl (by decide)),
   (shouldStopScraping_iff
      { initialState defaultScraperConfig 0 with
        consecutiveNoNewItems := 10, consecutiveScrollNoMove := 10 }
      defaultScraperConfig 0).2.2 (by decide) (by decide) (Or.inr (Or.inl (by decide)))⟩

theorem duplicate_quotient_gt_half (duplicateCount totalInBatch : Int)
    (h : totalInBatch > 0) :
    (duplicateCount : ℚ) / (totalInBatch : ℚ) > 1 / 2 ↔ 2 * duplicateCount > totalInBatch := by
  have hpos : (0 : ℚ) < (totalInBatch : ℚ) := by exact_mod_cast h
  rw [gt_iff_lt, lt_div_iff₀ hpos]
  constructor
  · intro hq
    have : (totalInBatch : ℚ) < 2 * (duplicateCount : ℚ) := by linarith
    exact_mod_cast this
  · intro hz
    have : (totalInBatch : ℚ) < 2 * (duplicateCount : ℚ) := by exact_mod_cast hz
    linarith

/-- The controller `calculateAdaptiveDelay` in integer arithmetic only. -/
theorem calculateAdaptiveDelay_eq (currentDelay newItemsCount duplicateCount totalInBatch : Int)
    (config : ScraperConfig) :
    calculateAdaptiveDelay currentDelay newItemsCount duplicateCount totalInBatch config
      = if newItemsCount > 20 then max (currentDelay - 100 * Millisecond) config.MinDelay
        else if newItemsCount = 0 then min (currentDelay + 500 * Millisecond) config.MaxDelay
        else if totalInBatch > 0 ∧ 2 * duplicateCount > totalInBatch then
          min (currentDelay + 200 * Millisecond) config.MaxDelay
        else currentDelay := by
  unfold calculateAdaptiveDelay
  by_cases h1 : newItemsCount > 20
  · simp only [if_pos h1]
    split_ifs with h
    · exact (max_eq_right (le_of_lt h)).symm
    · exact (max_eq_left (not_lt.1 h)).symm
  · by_cases h2 : newItemsCount = 0
    · simp only [if_neg h1, if_pos h2]
      split_ifs with h
      · exact (min_eq_right (le_of_lt h)).symm
      · exact (min_eq_left (not_lt.1 h)).symm
    · have hiff : (totalInBatch > 0 ∧ (duplicateCount : ℚ) / (totalInBatch : ℚ) > 1 / 2)
          ↔ (totalInBatch > 0 ∧ 2 * duplicateCount > totalInBatch) := by
        constructor
        · rintro ⟨ht, hq⟩
          exact ⟨ht, (duplicate_quotient_gt_half _ _ ht).1 hq⟩
        · rintro ⟨ht, hq⟩
          exact ⟨ht, (duplicate_quotient_gt_half _ _ ht).2 hq⟩
      simp only [if_neg h1, if_neg h2, hiff]
      by_cases h3 : totalInBatch > 0 ∧ 2 * duplicateCount > totalInBatch
      · simp only [if_pos h3]
        split_ifs with h
        · exact (min_eq_right (le_of_lt h)).symm
        · exact (min_eq_left (not_lt.1 h)).symm
      · simp only [if_neg h3]

theorem wrap64_of_range (x : Int) (hlo : -2 ^ 63 ≤ x) (hhi : x < 2 ^ 63) : wrap64 x = x := by
  unfold wrap64
  rw [Int.emod_eq_of_lt (by linarith) (by linarith)]
  ring

/-- The exact controller and the int64 controller agree when the current delay is
one step away from both ends of the int64 range. -/
theorem calculateAdaptiveDelay64_eq (currentDelay newItemsCount duplicateCount
    totalInBatch : Int) (config : ScraperConfig)
    (hlo : -2 ^ 63 + 100 * Millisecond ≤ currentDelay)
    (hhi : currentDelay + 500 * Millisecond < 2 ^ 63) :
    calculateAdaptiveDelay64 currentDelay newItemsCount duplicateCount totalInBatch config
      = calculateAdaptiveDelay currentDelay newItemsCount duplicateCount totalInBatch
          config := by
  have hms : Millisecond = 1000000 := rfl
  unfold calculateAdaptiveDelay64 calculateAdaptiveDelay
  rw [wrap64_of_range (currentDelay - 100 * Millisecond) (by linarith) (by linarith),
    wrap64_of_range (currentDelay + 500 * Millisecond) (by linarith) hhi,
    wrap64_of_range (currentDelay + 200 * Millisecond) (by linarith) (by linarith)]

/-- C4: `calculateAdaptiveDelay` follows the policy in priority order (more than 20
new items: minus 100ms, floored at `MinDelay`; no new item: plus 500ms, capped at
`MaxDelay`; more than half duplicates: plus 200ms, capped; otherwise unchanged), and
under the default bounds the three scenarios give 1.9s, 2.2s and 2.5s. -/
theorem calculateAdaptiveDelay_policy :
    (∀ (currentDelay newItemsCount duplicateCount totalInBatch : Int)
        (config : ScraperConfig),
      calculateAdaptiveDelay currentDelay newItemsCount duplicateCount totalInBatch config
        = if newItemsCount > 20 then max (currentDelay - 100 * Millisecond) config.MinDelay
          else if newItemsCount = 0 then
            min (currentDelay + 500 * Millisecond) config.MaxDelay
          else if totalInBatch > 0 ∧ 2 * duplicateCount > totalInBatch then
            min (currentDelay + 200 * Millisecond) config.MaxDelay
          else currentDelay)
    ∧ calculateAdaptiveDelay (2 * Second) 25 0 25 defaultScraperConfig = 1900 * Millisecond
    ∧ calculateAdaptiveDelay (2 * Second) 3 7 10 defaultScraperConfig = 2200 * Millisecond
    ∧ calculateAdaptiveDelay (2 * Second) 0 10 10 defaultScraperConfig
        = 2500 * Millisecond := by
  refine ⟨calculateAdaptiveDelay_eq, ?_, ?_, ?_⟩ <;>
  · rw [calculateAdaptiveDelay_eq]
    decide

/-- C9: `updateScrollSignals` advances or resets the unchanged-DOM counter and,
independently, the scroll-stuck counter, and leaves the no-new-items counter, the
scroll counter, the delay, the seen set and the totals as they were. -/
theorem updateScrollSignals_spec (state : ScrollState)
    (prevDOMCount currDOMCount prevScrollY currScrollY : Int) :
    (updateScrollSignals state prevDOMCount currDOMCount prevScrollY
        currScrollY).consecutiveUnchangedDOM
      = (if currDOMCount = prevDOMCount ∧ prevDOMCount > 0 then
          state.consecutiveUnchangedDOM + 1 else 0)
    ∧ (updateScrollSignals state prevDOMCount currDOMCount prevScrollY
        currScrollY).consecutiveScrollNoMove
      = (if currScrollY = prevScrollY ∧ prevScrollY > 0 then
          state.consecutiveScrollNoMove + 1 else 0)
    ∧ (updateScrollSignals state prevDOMCount currDOMCount prevScrollY
        currScrollY).consecutiveNoNewItems = state.consecutiveNoNewItems
    ∧ (updateScrollSignals state prevDOMCount currDOMCount prevScrollY
        currScrollY).currentScroll = state.currentScroll
    ∧ (updateScrollSignals state prevDOMCount currDOMCount prevScrollY
        currScrollY).currentDelay = state.currentDelay
    ∧ (updateScrollSignals state prevDOMCount currDOMCount prevScrollY
        currScrollY).seenURLs = state.seenURLs
    ∧ (updateScrollSignals state prevDOMCount currDOMCount prevScrollY
        currScrollY).totalItemsFound = state.totalItemsFound
    ∧ (updateScrollSignals state prevDOMCount currDOMCount prevScrollY
        currScrollY).totalNewItems = state.totalNewItems
    ∧ (updateScrollSignals state prevDOMCount currDOMCount prevScrollY
        currScrollY).totalDuplicates = state.totalDuplicates := by
  rw [updateScrollSignals_eq]
  exact ⟨rfl, rfl, rfl, rfl, rfl, rfl, rfl, rfl, rfl⟩

/-! ## The cycle -/

theorem cycleFilterState_consecutiveNoNewItems (d : DriverCycle) (state : ScrollState) :
    (cycleFilterState d state).consecutiveNoNewItems = state.consecutiveNoNewItems := by
  simp [cycleFilterState, updateScrollSignals_eq]

/-- C10: in a cycle whose scroll action and wait succeed (so that `filterDuplicates`
is reached), a batch is published exactly when `filterDuplicates` returned a non-empty
list and it is that list; without a publication `consecutiveNoNewItems` grows by one,
with one it is reset to 0. -/
theorem performScrollCycle_publish (d : DriverCycle) (state : ScrollState)
    (config : ScraperConfig) (hscroll : d.scrollOk = true) (hsleep : d.sleepOk = true) :
    ((performScrollCycle d state config).published.isSome = true
        ↔ (filterDuplicates (extractListings d) (cycleFilterState d state)).1 ≠ [])
    ∧ (∀ batch, (performScrollCycle d state config).published = some batch →
        batch = (filterDuplicates (extractListings d) (cycleFilterState d state)).1
        ∧ batch ≠ [])
    ∧ ((performScrollCycle d state config).published = none →
        (performScrollCycle d state config).state.consecutiveNoNewItems
          = state.consecutiveNoNewItems + 1)
    ∧ ((performScrollCycle d state config).published.isSome = true →
        (performScrollCycle d state config).state.consecutiveNoNewItems = 0) := by
  obtain ⟨hpub, -, hcnt, -, -⟩ := performScrollCycle_run d state config ⟨hscroll, hsleep⟩
  rw [cycleFilterState_consecutiveNoNewItems] at hcnt
  rw [hpub, hcnt]
  by_cases hlen : (filterDuplicates (extractListings d) (cycleFilterState d state)).1.length = 0
  · have hnil := List.length_eq_zero.1 hlen
    simp [hlen, hnil]
  · have hne : (filterDuplicates (extractListings d) (cycleFilterState d state)).1 ≠ [] :=
      fun h => hlen (List.length_eq_zero.2 h)
    simp only [hlen, if_false, Option.isSome_some, ne_eq, hne, not_false_eq_true,
      Option.some.injEq, true_iff, reduceCtorEq, false_implies, implies_true, and_true,
      true_and]
    intro batch hb
    exact ⟨hb.symm, hb ▸ hne⟩

/-- A witness of C10: a cycle whose only extracted listing is already known publishes
nothing and advances `consecutiveNoNewItems`. -/
theorem performScrollCycle_publish_witness :
    (goodCycle 24 0 24 800 [listing "a"]).scrollOk = true
    ∧ (goodCycle 24 0 24 800 [listing "a"]).sleepOk = true
    ∧ ((performScrollCycle (goodCycle 24 0 24 800 [listing "a"])
          { initialState defaultScraperConfig 0 with seenURLs := {"a"} }
          defaultScraperConfig).published = none →
        (performScrollCycle (goodCycle 24 0 24 800 [listing "a"])
          { initialState defaultScraperConfig 0 with seenURLs := {"a"} }
          defaultScraperConfig).state.consecutiveNoNewItems = 0 + 1) :=
  ⟨rfl, rfl,
    (performScrollCycle_publish (goodCycle 24 0 24 800 [listing "a"])
      { initialState defaultScraperConfig 0 with seenURLs := {"a"} }
      defaultScraperConfig rfl rfl).2.2.1⟩

/-! ## Delay bounds -/

theorem calculateAdaptiveDelay_bounds (currentDelay newItemsCount duplicateCount
    totalInBatch : Int) (config : ScraperConfig)
    (hmin : config.MinDelay ≤ currentDelay) (hmax : currentDelay ≤ config.MaxDelay) :
    config.MinDelay
        ≤ calculateAdaptiveDelay currentDelay newItemsCount duplicateCount totalInBatch
            config
    ∧ calculateAdaptiveDelay currentDelay newItemsCount duplicateCount totalInBatch config
        ≤ config.MaxDelay := by
  have hmm : config.MinDelay ≤ config.MaxDelay := le_trans hmin hmax
  have hms : (0 : Int) ≤ Millisecond := by decide
  rw [calculateAdaptiveDelay_eq]
  split_ifs
  · exact ⟨le_max_right _ _, max_le (by linarith) hmm⟩
  · exact ⟨le_min (by linarith) hmm, min_le_right _ _⟩
  · exact ⟨le_min (by linarith) hmm, min_le_right _ _⟩
  · exact ⟨hmin, hmax⟩

/-- The int64 controller `calculateAdaptiveDelay64` without the rational quotient. -/
theorem calculateAdaptiveDelay64_int (currentDelay newItemsCount duplicateCount
    totalInBatch : Int) (config : ScraperConfig) :
    calculateAdaptiveDelay64 currentDelay newItemsCount duplicateCount totalInBatch config
      = if newItemsCount > 20 then
          (if wrap64 (currentDelay - 100 * Millisecond) < config.MinDelay then
            config.MinDelay else wrap64 (currentDelay - 100 * Millisecond))
        else if newItemsCount = 0 then
          (if wrap64 (currentDelay + 500 * Millisecond) > config.MaxDelay then
            config.MaxDelay else wrap64 (currentDelay + 500 * Millisecond))
        else if totalInBatch > 0 ∧ 2 * duplicateCount > totalInBatch then
          (if wrap64 (currentDelay + 200 * Millisecond) > config.MaxDelay then
            config.MaxDelay else wrap64 (currentDelay + 200 * Millisecond))
        else currentDelay := by
  unfold calculateAdaptiveDelay64
  by_cases h1 : newItemsCount > 20
  · simp only [if_pos h1]
  · by_cases h2 : newItemsCount = 0
    · simp only [if_neg h1, if_pos h2]
    · have hiff : (totalInBatch > 0 ∧ (duplicateCount : ℚ) / (totalInBatch : ℚ) > 1 / 2)
          ↔ (totalInBatch > 0 ∧ 2 * duplicateCount > totalInBatch) := by
        constructor
        · rintro ⟨ht, hq⟩
          exact ⟨ht, (duplicate_quotient_gt_half _ _ ht).1 hq⟩
        · rintro ⟨ht, hq⟩
          exact ⟨ht, (duplicate_quotient_gt_half _ _ ht).2 hq⟩
      simp only [if_neg h1, if_neg h2, hiff]

/-- The int64 controller keeps a delay within `[MinDelay, MaxDelay]` when both bounds
are one controller step away from the ends of the int64 range. -/
theorem calculateAdaptiveDelay64_bounds (currentDelay newItemsCount duplicateCount
    totalInBatch : Int) (config : ScraperConfig)
    (hlow : -2 ^ 63 + 100 * Millisecond ≤ config.MinDelay)
    (hhigh : config.MaxDelay + 500 * Millisecond ≤ 2 ^ 63 - 1)
    (hmin : config.MinDelay ≤ currentDelay) (hmax : currentDelay ≤ config.MaxDelay) :
    config.MinDelay
        ≤ calculateAdaptiveDelay64 currentDelay newItemsCount duplicateCount totalInBatch
            config
    ∧ calculateAdaptiveDelay64 currentDelay newItemsCount duplicateCount totalInBatch
        config ≤ config.MaxDelay := by
  rw [calculateAdaptiveDelay64_eq currentDelay newItemsCount duplicateCount totalInBatch
    config (le_trans hlow hmin) (by linarith)]
  exact calculateAdaptiveDelay_bounds _ _ _ _ _ hmin hmax

theorem delayAfter_bounds (config : ScraperConfig) (counts : List (Int × Int × Int))
    (hlow : -2 ^ 63 + 100 * Millisecond ≤ config.MinDelay)
    (hhigh : config.MaxDelay + 500 * Millisecond ≤ 2 ^ 63 - 1)
    (hmin : config.MinDelay ≤ config.InitialDelay)
    (hmax : config.InitialDelay ≤ config.MaxDelay) :
    config.MinDelay ≤ delayAfter config counts
    ∧ delayAfter config counts ≤ config.MaxDelay := by
  unfold delayAfter
  generalize config.InitialDelay = d at hmin hmax
  induction counts generalizing d with
  | nil => exact ⟨hmin, hmax⟩
  | cons c rest ih =>
    rw [List.foldl_cons]
    obtain ⟨h1, h2⟩ :=
      calculateAdaptiveDelay64_bounds d c.1 c.2.1 c.2.2 config hlow hhigh hmin hmax
    exact ih _ h1 h2

theorem cycleFilterState_currentDelay (d : DriverCycle) (state : ScrollState) :
    (cycleFilterState d state).currentDelay = state.currentDelay := by
  simp [cycleFilterState, updateScrollSignals_eq]

theorem performScrollCycle_bounds (d : DriverCycle) (state : ScrollState)
    (config : ScraperConfig)
    (hlow : -2 ^ 63 + 100 * Millisecond ≤ config.MinDelay)
    (hhigh : config.MaxDelay + 500 * Millisecond ≤ 2 ^ 63 - 1)
    (hmin : config.MinDelay ≤ state.currentDelay)
    (hmax : state.currentDelay ≤ config.MaxDelay) :
    config.MinDelay ≤ (performScrollCycle d state config).state.currentDelay
    ∧ (performScrollCycle d state config).state.currentDelay ≤ config.MaxDelay := by
  by_cases hok : d.scrollOk = true ∧ d.sleepOk = true
  · obtain ⟨-, -, -, hdelay, -⟩ := performScrollCycle_run d state config hok
    rw [hdelay, cycleFilterState_currentDelay]
    exact calculateAdaptiveDelay64_bounds _ _ _ _ _ hlow hhigh hmin hmax
  · rw [performScrollCycle_failed d state config hok]
    exact ⟨hmin, hmax⟩

theorem scrapeLoop_bounds (config : ScraperConfig) (state : ScrollState)
    (inputs : List CycleInput)
    (hlow : -2 ^ 63 + 100 * Millisecond ≤ config.MinDelay)
    (hhigh : config.MaxDelay + 500 * Millisecond ≤ 2 ^ 63 - 1)
    (hmin : config.MinDelay ≤ state.currentDelay)
    (hmax : state.currentDelay ≤ config.MaxDelay) :
    config.MinDelay ≤ (scrapeLoop config state inputs).state.currentDelay
    ∧ (scrapeLoop config state inputs).state.currentDelay ≤ config.MaxDelay := by
  induction inputs generalizing state with
  | nil => exact ⟨hmin, hmax⟩
  | cons c rest ih =>
    unfold scrapeLoop
    by_cases hstop : shouldStopScraping state config c.elapsed = true
    · simp only [hstop, if_true]
      exact ⟨hmin, hmax⟩
    · simp only [hstop, if_false]
      obtain ⟨h1, h2⟩ :=
        performScrollCycle_bounds c.driver state config hlow hhigh hmin hmax
      cases hs : (performScrollCycle c.driver state config).status with
      | ok => simpa [hs] using ih _ h1 h2
      | driverError => simpa [hs] using And.intro h1 h2
      | divideByZero => simpa [hs] using And.intro h1 h2

theorem scrapeLoop_single (config : ScraperConfig) (state : ScrollState)
    (c : CycleInput) (hstop : shouldStopScraping state config c.elapsed = false) :
    (scrapeLoop config state [c]).state = (performScrollCycle c.driver state config).state
    ∧ (scrapeLoop config state [c]).batches
        = (performScrollCycle c.driver state config).published.toList := by
  unfold scrapeLoop
  simp only [hstop, Bool.false_eq_true, if_false]
  cases hs : (performScrollCycle c.driver state config).status <;> simp [hs, scrapeLoop]

/-- C5, as amended: when the configured delays satisfy `MinDelay ≤ InitialDelay ≤
MaxDelay` and both bounds are one controller step away from the ends of the int64
range of `time.Duration` (`MinDelay ≥ -2^63 + 100ms`, `MaxDelay + 500ms ≤ 2^63 - 1`),
the delay of a session started as `ScrapeCars` starts it stays within
`[MinDelay, MaxDelay]` after every cycle, for all driver outcomes and also for
arbitrary per-cycle counts, the controller running in int64 arithmetic. -/
theorem currentDelay_within_bounds (config : ScraperConfig) (now : Int)
    (inputs : List CycleInput) (counts : List (Int × Int × Int))
    (hlow : -2 ^ 63 + 100 * Millisecond ≤ config.MinDelay)
    (hhigh : config.MaxDelay + 500 * Millisecond ≤ 2 ^ 63 - 1)
    (hmin : config.MinDelay ≤ config.InitialDelay)
    (hmax : config.InitialDelay ≤ config.MaxDelay) :
    (config.MinDelay
        ≤ (scrapeLoop config (initialState config now) inputs).state.currentDelay
      ∧ (scrapeLoop config (initialState config now) inputs).state.currentDelay
        ≤ config.MaxDelay)
    ∧ (config.MinDelay ≤ delayAfter config counts
      ∧ delayAfter config counts ≤ config.MaxDelay) :=
  ⟨scrapeLoop_bounds config (initialState config now) inputs hlow hhigh hmin hmax,
   delayAfter_bounds config counts hlow hhigh hmin hmax⟩

/-- C5 as amended, on the default configuration and one cycle with a single new
listing. -/
theorem currentDelay_within_bounds_witness :
    -2 ^ 63 + 100 * Millisecond ≤ defaultScraperConfig.MinDelay
    ∧ defaultScraperConfig.MaxDelay + 500 * Millisecond ≤ 2 ^ 63 - 1
    ∧ defaultScraperConfig.MinDelay ≤ defaultScraperConfig.InitialDelay
    ∧ defaultScraperConfig.InitialDelay ≤ defaultScraperConfig.MaxDelay
    ∧ (scrapeLoop defaultScraperConfig (initialState defaultScraperConfig 0)
        [⟨0, goodCycle 24 0 48 800 [listing "a"]⟩]).state.currentDelay
        ≤ defaultScraperConfig.MaxDelay :=
  ⟨by decide, by decide, by decide, by decide,
    (currentDelay_within_bounds defaultScraperConfig 0
      [⟨0, goodCycle 24 0 48 800 [listing "a"]⟩] []
      (by decide) (by decide) (by decide) (by decide)).1.2⟩

/-- The delay left by a session of one cycle that is not stopped at its loop test. -/
theorem scrapeLoop_single_delay (config : ScraperConfig) (state : ScrollState)
    (c : CycleInput) (hstop : shouldStopScraping state config c.elapsed = false)
    (hok : c.driver.scrollOk = true ∧ c.driver.sleepOk = true) :
    (scrapeLoop config state [c]).state.currentDelay
      = calculateAdaptiveDelay64 state.currentDelay
          (filterDuplicates (extractListings c.driver)
            (cycleFilterState c.driver state)).1.length
          (filterDuplicates (extractListings c.driver)
            (cycleFilterState c.driver state)).2.totalDuplicates
          (extractListings c.driver).length config := by
  rw [(scrapeLoop_single config state c hstop).1,
    (performScrollCycle_run c.driver state config hok).2.2.2.1,
    cycleFilterState_currentDelay]

/-- C5 fails as stated, on three sessions of one cycle.  With
`SCRAPER_INITIAL_DELAY=10s` and the other defaults, a cycle that finds one new listing
leaves the delay at 10s, above `MaxDelay`.  With the initial and the maximal delay at
2^63 - 1 ns, a cycle without new listings adds 500ms in int64 and wraps to a negative
delay, below `MinDelay`.  With the initial and the minimal delay at -2^63 ns, a cycle
with 21 new listings subtracts 100ms in int64 and wraps to a delay above `MaxDelay`. -/
theorem currentDelay_bounds_counterexample :
    ¬ (slowStartConfig.MinDelay
        ≤ (scrapeLoop slowStartConfig (initialState slowStartConfig 0)
            [⟨0, goodCycle 24 0 48 800 [listing "a"]⟩]).state.currentDelay
      ∧ (scrapeLoop slowStartConfig (initialState slowStartConfig 0)
            [⟨0, goodCycle 24 0 48 800 [listing "a"]⟩]).state.currentDelay
        ≤ slowStartConfig.MaxDelay)
    ∧ (longestDelayConfig.MinDelay ≤ longestDelayConfig.InitialDelay
      ∧ longestDelayConfig.InitialDelay ≤ longestDelayConfig.MaxDelay
      ∧ (scrapeLoop longestDelayConfig (initialState longestDelayConfig 0)
            [⟨0, goodCycle 24 0 48 800 []⟩]).state.currentDelay
          = -9223372036354775809
      ∧ ¬ longestDelayConfig.MinDelay
          ≤ (scrapeLoop longestDelayConfig (initialState longestDelayConfig 0)
              [⟨0, goodCycle 24 0 48 800 []⟩]).state.currentDelay)
    ∧ (lowestDelayConfig.MinDelay ≤ lowestDelayConfig.InitialDelay
      ∧ lowestDelayConfig.InitialDelay ≤ lowestDelayConfig.MaxDelay
      ∧ ¬ (scrapeLoop lowestDelayConfig (initialState lowestDelayConfig 0)
              [⟨0, goodCycle 24 0 48 800 manyListings⟩]).state.currentDelay
          ≤ lowestDelayConfig.MaxDelay) := by
  refine ⟨?_, ⟨by decide, by decide, ?_, ?_⟩, ⟨by decide, by decide, ?_⟩⟩
  · rw [scrapeLoop_single_delay _ _ _ (by decide) ⟨rfl, rfl⟩, calculateAdaptiveDelay64_int]
    decide
  · rw [scrapeLoop_single_delay _ _ _ (by decide) ⟨rfl, rfl⟩, calculateAdaptiveDelay64_int]
    decide
  · rw [scrapeLoop_single_delay _ _ _ (by decide) ⟨rfl, rfl⟩, calculateAdaptiveDelay64_int]
    decide
  · rw [scrapeLoop_single_delay _ _ _ (by decide) ⟨rfl, rfl⟩, calculateAdaptiveDelay64_int]
    decide

/-! ## Driver errors that are not surfaced -/

/-- C7 fails on the code: a cycle whose extraction script fails, and a cycle whose DOM
and scroll-offset probes fail, both end with `return nil` (the scroll and the wait
having succeeded), and the session goes on to its next cycle. -/
theorem dropped_driver_errors_return_nil :
    failedExtractionCycle.extractOk = false
    ∧ (performScrollCycle failedExtractionCycle (initialState defaultScraperConfig 0)
        defaultScraperConfig).status = CycleStatus.ok
    ∧ failedProbeCycle.preDOMCount = none
    ∧ failedProbeCycle.postDOMCount = none
    ∧ (performScrollCycle failedProbeCycle (initialState defaultScraperConfig 0)
        defaultScraperConfig).status = CycleStatus.ok
    ∧ (scrapeLoop defaultScraperConfig (initialState defaultScraperConfig 0)
        [⟨0, failedExtractionCycle⟩, ⟨0, failedProbeCycle⟩]).status
        = SessionStatus.running := by
  decide

/-! ## The ingestion consumer -/

theorem consumeBatch_eq {σ : Type} (db : DB σ) (acc : ConsumerAcc σ) (batch : List Car) :
    consumeBatch db acc batch
      = { store := (batchContribution db acc.store batch).2
          totalCount := acc.totalCount + (batchContribution db acc.store batch).1
          insertCalls := acc.insertCalls ++ (batchInsertCall db acc.store batch).toList } := by
  unfold consumeBatch batchContribution batchInsertCall remainingRecords
  by_cases hb : batch = []
  · simp [hb]
  · have hlen : ¬ batch.length = 0 := fun h => hb (List.length_eq_zero.1 h)
    simp only [hb, hlen, if_false]
    rcases hfind : FindExistingLinks db acc.store (batch.map Car.Link) with ⟨s1, _ | existing⟩
    · simp
    · simp only
      by_cases hr : batch.filter (fun car => decide (car.Link ∉ existing)) = []
      · simp only [hr, List.length_nil, if_true]
        simp
      · have hrl : ¬ (batch.filter (fun car => decide (car.Link ∉ existing))).length = 0 :=
          fun h => hr (List.length_eq_zero.1 h)
        simp only [hr, hrl, if_false]
        rcases hins : InsertBatch db s1 (batch.filter (fun car => decide (car.Link ∉ existing)))
          with ⟨s2, _ | count⟩
        · simp
        · simp

theorem foldl_consumeBatch {σ : Type} (db : DB σ) (batches : List (List Car))
    (acc : ConsumerAcc σ) :
    (batches.foldl (consumeBatch db) acc).totalCount
        = acc.totalCount + (batchContributions db acc.store batches).sum
    ∧ (batches.foldl (consumeBatch db) acc).insertCalls
        = acc.insertCalls ++ expectedInsertCalls db acc.store batches := by
  induction batches generalizing acc with
  | nil => simp [batchContributions, expectedInsertCalls]
  | cons batch rest ih =>
    obtain ⟨h1, h2⟩ := ih (consumeBatch db acc batch)
    rw [List.foldl_cons, h1, h2, consumeBatch_eq]
    simp only [batchContributions, expectedInsertCalls, List.sum_cons, List.append_assoc]
    exact ⟨by ring, trivial⟩

theorem foldl_insertStep {σ : Type} (db : DB σ)
    (hrows : ∀ s car rows, (db.exec s car).2 = some rows → rows = 0 ∨ rows = 1)
    (cars : List Car) (s : σ) (n : Int) :
    (cars.foldl (insertStep db) (s, n)).2
      = n + ((execOutcomes db s cars).filter (fun r => decide (r = some 1))).length := by
  induction cars generalizing s n with
  | nil => simp [execOutcomes]
  | cons car rest ih =>
    rw [List.foldl_cons]
    rcases hex : db.exec s car with ⟨s1, _ | rows⟩
    · have hstep : insertStep db (s, n) car = (s1, n) := by simp [insertStep, hex]
      rw [hstep, ih]
      simp [execOutcomes, hex]
    · have hstep : insertStep db (s, n) car = (s1, n + rows) := by simp [insertStep, hex]
      rw [hstep, ih]
      rcases hrows s car rows (by rw [hex]) with h0 | h1
      · subst h0
        simp [execOutcomes, hex]
      · subst h1
        simp only [execOutcomes, hex, List.filter_cons, decide_True, if_true,
          List.length_cons, Nat.cast_add, Nat.cast_one]
        ring

theorem InsertBatch_count {σ : Type} (db : DB σ)
    (hrows : ∀ s car rows, (db.exec s car).2 = some rows → rows = 0 ∨ rows = 1)
    (s s1 : σ) (cars : List Car) (count : Int)
    (h : InsertBatch db s cars = (s1, some count)) :
    count = insertedRecords db s cars := by
  unfold InsertBatch at h
  unfold insertedRecords
  by_cases hc : cars.length = 0
  · have hnil := List.length_eq_zero.1 hc
    subst hnil
    simp only [List.length_nil, if_true, Prod.mk.injEq, Option.some.injEq] at h
    simp [execOutcomes, ← h.2]
  · simp only [hc, if_false] at h
    rcases hb : db.begin s with ⟨sb, _ | _⟩
    · simp [hb] at h
    · rcases hp : db.prepare sb with ⟨sp, _ | _⟩
      · simp [hb, hp] at h
      · have hfold := foldl_insertStep db hrows cars sp 0
        rcases hcm : db.commit (cars.foldl (insertStep db) (sp, 0)).1 with ⟨sc, _ | _⟩
        · simp [hb, hp, hcm] at h
        · simp only [hb, hp, hcm, Prod.mk.injEq, Option.some.injEq] at h
          rw [← h.2, hfold, zero_add]

theorem InsertBatch_some {σ : Type} (db : DB σ)
    (hrows : ∀ s car rows, (db.exec s car).2 = some rows → rows = 0 ∨ rows = 1)
    (s : σ) (cars : List Car) (hbegin : (db.begin s).2 = true)
    (hprepare : (db.prepare (db.begin s).1).2 = true)
    (hcommit : (db.commit
      (cars.foldl (insertStep db) ((db.prepare (db.begin s).1).1, 0)).1).2 = true) :
    (InsertBatch db s cars).2 = some (insertedRecords db s cars) := by
  unfold InsertBatch insertedRecords
  by_cases hc : cars.length = 0
  · have hnil := List.length_eq_zero.1 hc
    subst hnil
    simp [execOutcomes]
  · simp only [hc, if_false]
    rcases hb : db.begin s with ⟨sb, _ | _⟩
    · simp [hb] at hbegin
    · simp only [hb] at hprepare hcommit ⊢
      rcases hp : db.prepare sb with ⟨sp, _ | _⟩
      · simp [hp] at hprepare
      · simp only [hp] at hcommit ⊢
        have hfold := foldl_insertStep db hrows cars sp 0
        rcases hcm : db.commit (cars.foldl (insertStep db) (sp, 0)).1 with ⟨sc, _ | _⟩
        · simp [hcm] at hcommit
        · simp only [hfold, zero_add]

theorem scenarioStore_rows (s : List String) (car : Car) (rows : Int)
    (h : (scenarioStore.exec s car).2 = some rows) : rows = 0 ∨ rows = 1 := by
  simp only [scenarioStore] at h
  split_ifs at h
  · simp only [Option.some.injEq] at h
    exact Or.inl h.symm
  · simp only [Option.some.injEq] at h
    exact Or.inr h.symm

/-- C6: for a store whose single-row insert affects no row or one row, the total
returned by `ScrapeAndStoreCars` is the sum of the per-batch contributions in arrival
order (0 for an empty batch, a failed lookup, no remaining record or a failed
`InsertBatch`), `InsertBatch` is called once per batch that reaches it, with exactly
the remaining records in batch order, and the count it returns is the number of those
records whose individual insert succeeded and affected a row; a failing single insert
does not make `InsertBatch` fail, which succeeds whenever the transaction begins, the
statement is prepared and the commit goes through. -/
theorem ScrapeAndStoreCars_total {σ ε : Type} (db : DB σ)
    (hrows : ∀ s car rows, (db.exec s car).2 = some rows → rows = 0 ∨ rows = 1)
    (s : σ) (batches : List (List Car)) (err : Option ε) :
    (ScrapeAndStoreCars db s batches err).1 = ((batchContributions db s batches).sum, err)
    ∧ (ScrapeAndStoreCars db s batches err).2.insertCalls
        = expectedInsertCalls db s batches
    ∧ (∀ s0 s1 cars count, InsertBatch db s0 cars = (s1, some count) →
        count = insertedRecords db s0 cars)
    ∧ (∀ s0 cars, (db.begin s0).2 = true → (db.prepare (db.begin s0).1).2 = true →
        (db.commit
          (cars.foldl (insertStep db) ((db.prepare (db.begin s0).1).1, 0)).1).2 = true →
        (InsertBatch db s0 cars).2 = some (insertedRecords db s0 cars)) := by
  obtain ⟨h1, h2⟩ := foldl_consumeBatch db batches ⟨s, 0, []⟩
  refine ⟨?_, ?_, ?_, ?_⟩
  · simp only [ScrapeAndStoreCars, h1, zero_add]
  · simp only [ScrapeAndStoreCars, h2, List.nil_append]
  · intro s0 s1 cars count h
    exact InsertBatch_count db hrows s0 s1 cars count h
  · intro s0 cars hb hp hc
    exact InsertBatch_some db hrows s0 cars hb hp hc

/-- Scenario D as a witness of C6: of the five listings a..e the store already holds a
and b, the inserts of c, d, e are attempted in one `InsertBatch` call, the insert of d
fails, and the session total is 2. -/
theorem ScrapeAndStoreCars_total_witness :
    (∀ s car rows, (scenarioStore.exec s car).2 = some rows → rows = 0 ∨ rows = 1)
    ∧ (ScrapeAndStoreCars scenarioStore ["a", "b"] [scenarioBatch] (none : Option Unit)).1
        = (2, none)
    ∧ (ScrapeAndStoreCars scenarioStore ["a", "b"] [scenarioBatch]
        (none : Option Unit)).2.insertCalls = [[listing "c", listing "d", listing "e"]]
    ∧ execOutcomes scenarioStore ["a", "b"] [listing "c", listing "d", listing "e"]
        = [some 1, none, some 1] :=
  ⟨scenarioStore_rows,
   ((ScrapeAndStoreCars_total scenarioStore scenarioStore_rows ["a", "b"] [scenarioBatch]
      (none : Option Unit)).1).trans (by decide),
   ((ScrapeAndStoreCars_total scenarioStore scenarioStore_rows ["a", "b"] [scenarioBatch]
      (none : Option Unit)).2.1).trans (by decide),
   by decide⟩

/-! ## Runs of stuck cycles -/

theorem updateSignalsOver_stuck (snaps : List Snapshots) (state : ScrollState)
    (hstuck : ∀ p ∈ snaps, p.Stuck) :
    (updateSignalsOver state snaps).consecutiveUnchangedDOM
        = state.consecutiveUnchangedDOM + snaps.length
    ∧ (updateSignalsOver state snaps).consecutiveScrollNoMove
        = state.consecutiveScrollNoMove + snaps.length
    ∧ (updateSignalsOver state snaps).consecutiveNoNewItems = state.consecutiveNoNewItems
    ∧ (updateSignalsOver state snaps).currentScroll = state.currentScroll := by
  induction snaps generalizing state with
  | nil => simp [updateSignalsOver]
  | cons p rest ih =>
    obtain ⟨hd, hdpos, hy, hypos⟩ := hstuck p (List.mem_cons_self _ _)
    obtain ⟨h1, h2, h3, h4⟩ :=
      ih (updateScrollSignals state p.prevDOMCount p.currDOMCount p.prevScrollY
        p.currScrollY) (fun q hq => hstuck q (List.mem_cons_of_mem _ hq))
    unfold updateSignalsOver at h1 h2 h3 h4 ⊢
    rw [List.foldl_cons, h1, h2, h3, h4, updateScrollSignals_eq]
    simp only [hd, hdpos, hy, hypos, and_self, if_true, List.length_cons, Nat.cast_add,
      Nat.cast_one]
    exact ⟨by ring, by ring, trivial⟩

theorem performScrollCycle_signals (d : DriverCycle) (state : ScrollState)
    (config : ScraperConfig) (h : d.scrollOk = true ∧ d.sleepOk = true) :
    (performScrollCycle d state config).state.consecutiveUnchangedDOM
        = (cycleFilterState d state).consecutiveUnchangedDOM
    ∧ (performScrollCycle d state config).state.consecutiveScrollNoMove
        = (cycleFilterState d state).consecutiveScrollNoMove
    ∧ (performScrollCycle d state config).state.currentScroll = state.currentScroll + 1
    ∧ (config.ExtractionInterval ≠ 0 →
        (performScrollCycle d state config).status = CycleStatus.ok)
    ∧ (config.ExtractionInterval = 0 →
        (performScrollCycle d state config).status = CycleStatus.divideByZero) := by
  unfold performScrollCycle cycleFilterState
  simp only [h, and_self, not_true_eq_false, if_false, filterDuplicates_snd,
    updateScrollSignals_eq]
  split_ifs <;> simp_all [logProgress]

theorem cycleFilterState_stuck (d : DriverCycle) (state : ScrollState) (h : d.Stuck) :
    (cycleFilterState d state).consecutiveUnchangedDOM = state.consecutiveUnchangedDOM + 1
    ∧ (cycleFilterState d state).consecutiveScrollNoMove
        = state.consecutiveScrollNoMove + 1 := by
  obtain ⟨-, -, c, y, hc, hy, h1, h2, h3, h4⟩ := h
  simp [cycleFilterState, updateScrollSignals_eq, captureDOMState, h1, h2, h3, h4, hc, hy]

theorem runCycles_stuck (config : ScraperConfig) (ds : List DriverCycle)
    (state : ScrollState) (hinterval : config.ExtractionInterval ≠ 0)
    (hstuck : ∀ d ∈ ds, d.Stuck) :
    (runCycles config state ds).consecutiveUnchangedDOM
        = state.consecutiveUnchangedDOM + ds.length
    ∧ (runCycles config state ds).consecutiveScrollNoMove
        = state.consecutiveScrollNoMove + ds.length
    ∧ (runCycles config state ds).currentScroll = state.currentScroll + ds.length := by
  induction ds generalizing state with
  | nil => simp [runCycles]
  | cons d rest ih =>
    have hd := hstuck d (List.mem_cons_self _ _)
    obtain ⟨g1, g2, g3, g4, -⟩ := performScrollCycle_signals d state config ⟨hd.1, hd.2.1⟩
    obtain ⟨k1, k2⟩ := cycleFilterState_stuck d state hd
    obtain ⟨h1, h2, h3⟩ := ih (performScrollCycle d state config).state
      (fun q hq => hstuck q (List.mem_cons_of_mem _ hq))
    unfold runCycles
    simp only [g4 hinterval]
    rw [h1, h2, h3, g1, g2, g3, k1, k2]
    simp only [List.length_cons, Nat.cast_add, Nat.cast_one]
    exact ⟨by ring, by ring, by ring⟩

theorem shouldStopScraping_two_equal_signals (state : ScrollState) (config : ScraperConfig)
    (elapsed : Int) (n : Nat) (hthreshold : config.MaxConsecutiveUnchanged = 10)
    (hdom : state.consecutiveUnchangedDOM = n) (hmove : state.consecutiveScrollNoMove = n)
    (hnew : state.consecutiveNoNewItems < config.MaxConsecutiveNoNew)
    (hscrolls : state.currentScroll < config.MaxScrolls)
    (helapsed : elapsed < config.MaxDuration) :
    shouldStopScraping state config elapsed = true ↔ 10 ≤ n := by
  unfold shouldStopScraping
  have h1 : ¬ state.currentScroll ≥ config.MaxScrolls := not_le.2 hscrolls
  have h2 : ¬ elapsed ≥ config.MaxDuration := not_le.2 helapsed
  have h3 : ¬ state.consecutiveNoNewItems ≥ config.MaxConsecutiveNoNew := not_le.2 hnew
  simp only [h1, h2, h3, if_false, hthreshold, hdom, hmove]
  by_cases hn : 10 ≤ n
  · have hz : (n : Int) ≥ 10 := by exact_mod_cast hn
    simp [hz, hn]
  · have hz : ¬ (n : Int) ≥ 10 := by
      intro hz
      exact hn (by exact_mod_cast hz)
    simp [hz, hn]

/-- C11: from a state whose unchanged-DOM and scroll-stuck counters are 0, n
consecutive cycles that leave the DOM count (non-zero) and the scroll offset (non-zero)
as they were bring both counters to n, through `updateScrollSignals` alone and through
whole `performScrollCycle` calls; with the threshold 10 for both signals, the
no-new-items counter below its threshold and no hard stop reached,
`shouldStopScraping` is then true exactly when n is at least 10, so false after each
of the first 9 cycles and true after the 10th. -/
theorem stuck_cycles_halt_at_ten (state : ScrollState) (config : ScraperConfig)
    (snaps : List Snapshots) (ds : List DriverCycle) (elapsed : Int)
    (hdom : state.consecutiveUnchangedDOM = 0) (hmove : state.consecutiveScrollNoMove = 0)
    (hthreshold : config.MaxConsecutiveUnchanged = 10)
    (hinterval : config.ExtractionInterval ≠ 0)
    (hsnaps : ∀ p ∈ snaps, p.Stuck) (hds : ∀ d ∈ ds, d.Stuck) :
    ((updateSignalsOver state snaps).consecutiveUnchangedDOM = snaps.length
      ∧ (updateSignalsOver state snaps).consecutiveScrollNoMove = snaps.length)
    ∧ ((updateSignalsOver state snaps).consecutiveNoNewItems < config.MaxConsecutiveNoNew →
        (updateSignalsOver state snaps).currentScroll < config.MaxScrolls →
        elapsed < config.MaxDuration →
        (shouldStopScraping (updateSignalsOver state snaps) config elapsed = true
          ↔ 10 ≤ snaps.length))
    ∧ ((runCycles config state ds).consecutiveUnchangedDOM = ds.length
      ∧ (runCycles config state ds).consecutiveScrollNoMove = ds.length)
    ∧ ((runCycles config state ds).consecutiveNoNewItems < config.MaxConsecutiveNoNew →
        (runCycles config state ds).currentScroll < config.MaxScrolls →
        elapsed < config.MaxDuration →
        (shouldStopScraping (runCycles config state ds) config elapsed = true
          ↔ 10 ≤ ds.length)) := by
  obtain ⟨a1, a2, -, -⟩ := updateSignalsOver_stuck snaps state hsnaps
  obtain ⟨b1, b2, -⟩ := runCycles_stuck config ds state hinterval hds
  rw [hdom, zero_add] at a1 b1
  rw [hmove, zero_add] at a2 b2
  refine ⟨⟨a1, a2⟩, ?_, ⟨b1, b2⟩, ?_⟩
  · intro hnew hscrolls helapsed
    exact shouldStopScraping_two_equal_signals _ config elapsed snaps.length hthreshold
      a1 a2 hnew hscrolls helapsed
  · intro hnew hscrolls helapsed
    exact shouldStopScraping_two_equal_signals _ config elapsed ds.length hthreshold
      b1 b2 hnew hscrolls helapsed

/-- Scenario E as a witness of C11: with the default configuration and the
no-new-items counter at 4, ten stuck cycles halt the session and nine do not. -/
theorem stuck_cycles_halt_at_ten_witness :
    shouldStopScraping
        (updateSignalsOver
          { initialState defaultScraperConfig 0 with consecutiveNoNewItems := 4 }
          (List.replicate 10 ⟨24, 24, 800, 800⟩))
        defaultScraperConfig 0 = true
    ∧ ¬ shouldStopScraping
        (updateSignalsOver
          { initialState defaultScraperConfig 0 with consecutiveNoNewItems := 4 }
          (List.replicate 9 ⟨24, 24, 800, 800⟩))
        defaultScraperConfig 0 = true
    ∧ (runCycles defaultScraperConfig
        { initialState defaultScraperConfig 0 with consecutiveNoNewItems := 4 }
        (List.replicate 10 (goodCycle 24 800 24 800 [listing "a"]))).consecutiveUnchangedDOM
        = 10 :=
  ⟨((stuck_cycles_halt_at_ten
        { initialState defaultScraperConfig 0 with consecutiveNoNewItems := 4 }
        defaultScraperConfig (List.replicate 10 ⟨24, 24, 800, 800⟩) [] 0 rfl rfl rfl
        (by decide)
        (fun p hp => by
          rw [List.eq_of_mem_replicate hp]
          exact ⟨rfl, by decide, rfl, by decide⟩)
        (fun d hd => absurd hd (List.not_mem_nil d))).2.1
      (by decide) (by decide) (by decide)).2 (by decide),
   fun hstop => absurd
    (((stuck_cycles_halt_at_ten
        { initialState defaultScraperConfig 0 with consecutiveNoNewItems := 4 }
        defaultScraperConfig (List.replicate 9 ⟨24, 24, 800, 800⟩) [] 0 rfl rfl rfl
        (by decide)
        (fun p hp => by
          rw [List.eq_of_mem_replicate hp]
          exact ⟨rfl, by decide, rfl, by decide⟩)
        (fun d hd => absurd hd (List.not_mem_nil d))).2.1
      (by decide) (by decide) (by decide)).1 hstop) (by decide),
   (stuck_cycles_halt_at_ten
        { initialState defaultScraperConfig 0 with consecutiveNoNewItems := 4 }
        defaultScraperConfig [] (List.replicate 10 (goodCycle 24 800 24 800 [listing "a"]))
        0 rfl rfl rfl (by decide)
        (fun p hp => absurd hp (List.not_mem_nil p))
        (fun d hd => by
          rw [List.eq_of_mem_replicate hd]
          exact ⟨rfl, rfl, 24, 800, by decide, by decide, rfl, rfl, rfl, rfl⟩)).2.2.1.1⟩

/-- C12: when `MinDelay ≤ MaxDelay` and the current delay lies within
`[MinDelay, MaxDelay]`, the delay returned by `calculateAdaptiveDelay` lies within
`[MinDelay, MaxDelay]` again, for all counts. -/
theorem calculateAdaptiveDelay_preserves_bounds (config : ScraperConfig)
    (currentDelay newItemsCount duplicateCount totalInBatch : Int)
    (_hconfig : config.MinDelay ≤ config.MaxDelay)
    (hmin : config.MinDelay ≤ currentDelay) (hmax : currentDelay ≤ config.MaxDelay) :
    config.MinDelay
        ≤ calculateAdaptiveDelay currentDelay newItemsCount duplicateCount totalInBatch
            config
    ∧ calculateAdaptiveDelay currentDelay newItemsCount duplicateCount totalInBatch config
        ≤ config.MaxDelay :=
  calculateAdaptiveDelay_bounds currentDelay newItemsCount duplicateCount totalInBatch
    config hmin hmax

/-- C12 on the default bounds: from 4.8s a cycle without new items is capped at 5s,
and from 1.55s a cycle with 25 new items is floored at 1.5s. -/
theorem calculateAdaptiveDelay_preserves_bounds_witness :
    (defaultScraperConfig.MinDelay
        ≤ calculateAdaptiveDelay (4800 * Millisecond) 0 10 10 defaultScraperConfig
      ∧ calculateAdaptiveDelay (4800 * Millisecond) 0 10 10 defaultScraperConfig
        ≤ defaultScraperConfig.MaxDelay)
    ∧ (defaultScraperConfig.MinDelay
        ≤ calculateAdaptiveDelay (1550 * Millisecond) 25 0 25 defaultScraperConfig
      ∧ calculateAdaptiveDelay (1550 * Millisecond) 25 0 25 defaultScraperConfig
        ≤ defaultScraperConfig.MaxDelay) :=
  ⟨calculateAdaptiveDelay_preserves_bounds defaultScraperConfig (4800 * Millisecond) 0 10 10
      (by decide) (by decide) (by decide),
   calculateAdaptiveDelay_preserves_bounds defaultScraperConfig (1550 * Millisecond) 25 0 25
      (by decide) (by decide) (by decide)⟩

/-! ## The progress interval -/

theorem performScrollCycle_status (d : DriverCycle) (state : ScrollState)
    (config : ScraperConfig) (h : d.scrollOk = true ∧ d.sleepOk = true) :
    ((performScrollCycle d state config).status = CycleStatus.ok
        ↔ config.ExtractionInterval ≠ 0)
    ∧ ((performScrollCycle d state config).status = CycleStatus.divideByZero
        ↔ config.ExtractionInterval = 0) := by
  obtain ⟨-, -, -, hok, hzero⟩ := performScrollCycle_signals d state config h
  by_cases hi : config.ExtractionInterval = 0
  · simp [hzero hi, hi]
  · simp [hok hi, hi]

/-- C13 fails on the code: `SCRAPER_EXTRACTION_INTERVAL=0` is accepted by `getEnvInt`,
`loadScraperConfig` returns `ExtractionInterval = 0`, and a cycle whose driver calls
all succeed then ends in the division by zero of `currentScroll % ExtractionInterval`
instead of returning nil; the session crashes in its first cycle. -/
theorem zero_interval_divides_by_zero :
    atoi "0" = some 0
    ∧ (loadScraperConfig zeroIntervalEnv rejectDuration).ExtractionInterval = 0
    ∧ (performScrollCycle (goodCycle 24 0 48 800 [listing "a"])
        (initialState (loadScraperConfig zeroIntervalEnv rejectDuration) 0)
        (loadScraperConfig zeroIntervalEnv rejectDuration)).status
        = CycleStatus.divideByZero
    ∧ (scrapeLoop (loadScraperConfig zeroIntervalEnv rejectDuration)
        (initialState (loadScraperConfig zeroIntervalEnv rejectDuration) 0)
        [⟨0, goodCycle 24 0 48 800 [listing "a"]⟩]).status = SessionStatus.crashed := by
  decide

end CarListing
